import Mathlib

/-!
Shallow embedding of the lottery-pool apuration and prize-distribution
engine (app/services/resultado_service.py, app/services/bolao_service.py
and the admin apuration endpoints of app/api/v1/admin/boloes.py).

Modelling conventions:
* Python floats are idealised as exact rationals; Python's one-argument
  `round` (round-half-to-even) is `pyRound`, and `round(x, 2)` is `round2`.
* The remote store is a record of tables (lists of rows); `insert` appends,
  `update ... eq` patches every matching row, `select ... eq ... data[0]`
  is `List.find?`.
* The external lottery-result API is a parameter
  `resolver : Int -> Option ResultadoCompleto`.
* Python dicts keyed by user preserve insertion order; they are embedded as
  association lists updated in place (`bumpUsuario`).
-/

namespace Lotofacil

/-- Python `round(x)` on an exact value: round half to even. -/
def pyRound (x : ℚ) : ℤ :=
  let f : ℤ := ⌊x⌋
  if x - f < 1/2 then f
  else if x - f > 1/2 then f + 1
  else if 2 ∣ f then f else f + 1

/-- Python `round(x, 2)` on an exact value: round to cents, half to even. -/
def round2 (x : ℚ) : ℚ :=
  (pyRound (x * 100) : ℚ) / 100

/-- Row of the `boloes` table (fields used by the apuration engine). -/
structure Bolao where
  id : String
  nome : String
  valor_cota : ℚ
  concurso_numero : ℤ
  concurso_fim : Option ℤ
  concursos_apurados : Option ℤ
  status : String
  resultado_dezenas : Option (List ℤ)
deriving Repr, DecidableEq

/-- Row of the `jogos_bolao` table. -/
structure Jogo where
  id : String
  bolao_id : String
  dezenas : List ℤ
  acertos : Option ℕ
deriving Repr, DecidableEq

/-- Row of the `cotas` table (fields selected by the distributor). -/
structure Cota where
  bolao_id : String
  usuario_id : String
  valor_pago : ℚ
deriving Repr, DecidableEq

/-- Row of the `carteira` table. -/
structure Carteira where
  usuario_id : String
  saldo_disponivel : ℚ
deriving Repr, DecidableEq

/-- Row of the `transacoes` ledger table. -/
structure Transacao where
  usuario_id : String
  tipo : String
  valor : ℚ
  origem : String
  referencia_id : String
  descricao : String
  saldo_anterior : ℚ
  saldo_posterior : ℚ
  status : String
deriving Repr, DecidableEq

/-- Row of the `resultados_concurso` table. -/
structure ResultadoConcurso where
  bolao_id : String
  concurso_numero : ℤ
  dezenas : List ℤ
deriving Repr, DecidableEq

/-- Row of the `acertos_concurso` table. -/
structure AcertoConcurso where
  jogo_id : String
  bolao_id : String
  concurso_numero : ℤ
  acertos : ℕ
deriving Repr, DecidableEq

/-- Row of the `premiacoes_bolao` table. -/
structure Premiacao where
  bolao_id : String
  concurso_numero : ℤ
  premio_total : ℚ
  distribuido : Bool
deriving Repr, DecidableEq

/-- The store: every table the apuration engine reads or writes. -/
structure DB where
  boloes : List Bolao
  jogos_bolao : List Jogo
  cotas : List Cota
  carteira : List Carteira
  transacoes : List Transacao
  resultados_concurso : List ResultadoConcurso
  acertos_concurso : List AcertoConcurso
  premiacoes_bolao : List Premiacao
deriving Repr, DecidableEq

/-- `BolaoService.is_teimosinha`: `concurso_fim is not None and concurso_fim > concurso_numero`. -/
def is_teimosinha (bolao : Bolao) : Bool :=
  match bolao.concurso_fim with
  | some fim => fim > bolao.concurso_numero
  | none => false

/-- `BolaoService.total_concursos`. The guard `if bolao.get("concurso_fim") and ...`
tests Python truthiness, so a stored 0 counts as absent. -/
def total_concursos (bolao : Bolao) : ℤ :=
  match bolao.concurso_fim with
  | some fim => if fim ≠ 0 ∧ fim > bolao.concurso_numero then fim - bolao.concurso_numero + 1 else 1
  | none => 1

/-- `BolaoService.concursos_list`: `range(concurso_numero, concurso_fim + 1)` when a
series, else the singleton start contest (same truthiness guard as `total_concursos`). -/
def concursos_list (bolao : Bolao) : List ℤ :=
  match bolao.concurso_fim with
  | some fim =>
    if fim ≠ 0 ∧ fim > bolao.concurso_numero then
      (List.range (fim + 1 - bolao.concurso_numero).toNat).map (fun i => bolao.concurso_numero + i)
    else [bolao.concurso_numero]
  | none => [bolao.concurso_numero]

/-- `ResultadoService.calcular_acertos`: `len(set(jogo) & set(resultado))`. -/
def calcular_acertos (jogo_dezenas resultado_dezenas : List ℤ) : ℕ :=
  (jogo_dezenas.toFinset ∩ resultado_dezenas.toFinset).card

/-- Element of the `jogos_resultado` list threaded between scorer and distributor. -/
structure JogoResultado where
  jogo_id : String
  dezenas : List ℤ
  acertos : ℕ
deriving Repr, DecidableEq

/-- What `buscar_resultado_completo` delivers for an available contest:
sorted drawn numbers plus the payout table keyed by hit count (11..15). -/
structure ResultadoCompleto where
  dezenas : List ℤ
  premiacoes : List (ℕ × ℚ)
deriving Repr, DecidableEq

/-- The external lottery-result API as seen by the engine. -/
def Resolver := ℤ → Option ResultadoCompleto

/-- The loop `for jogo in jogos_resultado: if acertos >= 11 and acertos in
premiacoes: premio_total += premiacoes[acertos]` of `calcular_e_distribuir_premio`. -/
def premioTotalCalc (premiacoes : List (ℕ × ℚ)) (jogos_resultado : List JogoResultado) : ℚ :=
  jogos_resultado.foldl
    (fun acc jogo =>
      if 11 ≤ jogo.acertos then
        match premiacoes.lookup jogo.acertos with
        | some v => acc + v
        | none => acc
      else acc)
    0

/-- In-place insertion-ordered update of a per-user dict:
`d[uid] = d.get(uid, 0) + qtd` on an association list. -/
def bumpUsuario (l : List (String × ℤ)) (uid : String) (qtd : ℤ) : List (String × ℤ) :=
  match l with
  | [] => [(uid, qtd)]
  | (k, v) :: rest => if k == uid then (k, v + qtd) :: rest else (k, v) :: bumpUsuario rest uid qtd

/-- Effective share count of one purchase:
`max(1, round(valor_pago / valor_cota))`, or 1 when `valor_cota <= 0`. -/
def qtdCota (valor_cota : ℚ) (cota : Cota) : ℤ :=
  if valor_cota > 0 then max 1 (pyRound (cota.valor_pago / valor_cota)) else 1

/-- The `cotas_por_usuario` dict of `calcular_e_distribuir_premio`: per user,
the sum of `qtdCota` over that user's purchases, in first-purchase order. -/
def cotasPorUsuario (valor_cota : ℚ) (cotas : List Cota) : List (String × ℤ) :=
  cotas.foldl (fun acc cota => bumpUsuario acc cota.usuario_id (qtdCota valor_cota cota)) []

/-- The ledger row appended by one distribution-loop iteration:
`tipo=credito`, `origem=premio_bolao`, `referencia_id=bolao_id`, with the
balance read before the update and the rounded balance written after it. -/
def transacaoPremio (bolao_id bolao_nome : String) (concurso_numero : ℤ)
    (usuario_id : String) (qtd_cotas : ℤ) (premio_usuario saldo_anterior : ℚ) : Transacao :=
  { usuario_id := usuario_id
    tipo := "credito"
    valor := premio_usuario
    origem := "premio_bolao"
    referencia_id := bolao_id
    descricao := "Prêmio " ++ bolao_nome ++ " - Concurso " ++ toString concurso_numero ++
      " (" ++ toString qtd_cotas ++ " cota" ++ (if qtd_cotas > 1 then "s" else "") ++ ")"
    saldo_anterior := saldo_anterior
    saldo_posterior := round2 (saldo_anterior + premio_usuario)
    status := "confirmado" }

/-- One iteration of the distribution loop of `calcular_e_distribuir_premio`:
compute the buyer's rounded proportional prize
`round((qtd_cotas / total_cotas) * premio_total, 2)`, skip non-positive prizes
and missing wallets, otherwise write the new balance to every wallet row of the
buyer and append one ledger row. -/
def creditarUsuario (bolao_id bolao_nome : String) (concurso_numero : ℤ)
    (premio_total : ℚ) (total_cotas : ℤ) (db : DB) (entry : String × ℤ) : DB :=
  if round2 ((entry.2 : ℚ) / (total_cotas : ℚ) * premio_total) ≤ 0 then db
  else
    match db.carteira.find? (fun c => c.usuario_id == entry.1) with
    | none => db
    | some carteira =>
      { db with
        carteira := db.carteira.map (fun c =>
          if c.usuario_id == entry.1 then
            { c with saldo_disponivel := round2 (carteira.saldo_disponivel +
                round2 ((entry.2 : ℚ) / (total_cotas : ℚ) * premio_total)) }
          else c),
        transacoes := db.transacoes ++ [transacaoPremio bolao_id bolao_nome concurso_numero
          entry.1 entry.2 (round2 ((entry.2 : ℚ) / (total_cotas : ℚ) * premio_total))
          carteira.saldo_disponivel] }

/-- The distributor's pool-row read
`bolao_result.data[0]["nome"] if bolao_result.data else "Bolão"`. -/
def nomeBolaoLido (db : DB) (bolao_id : String) : String :=
  match db.boloes.find? (fun b => b.id == bolao_id) with
  | some b => b.nome
  | none => "Bolão"

/-- The distributor's pool-row read
`float(bolao_result.data[0]["valor_cota"]) if bolao_result.data else 0`. -/
def valorCotaLido (db : DB) (bolao_id : String) : ℚ :=
  match db.boloes.find? (fun b => b.id == bolao_id) with
  | some b => b.valor_cota
  | none => 0

/-- `ResultadoService.calcular_e_distribuir_premio`. Returns the updated store
and the (unrounded) `premio_total` return value. -/
def calcular_e_distribuir_premio (db : DB) (bolao_id : String) (concurso_numero : ℤ)
    (premiacoes : List (ℕ × ℚ)) (jogos_resultado : List JogoResultado) : DB × ℚ :=
  if premioTotalCalc premiacoes jogos_resultado ≤ 0 then
    ({ db with premiacoes_bolao := db.premiacoes_bolao ++
        [⟨bolao_id, concurso_numero, 0, true⟩] }, 0)
  else
    if (db.cotas.filter (fun c => c.bolao_id == bolao_id)).isEmpty then
      ({ db with premiacoes_bolao := db.premiacoes_bolao ++
          [⟨bolao_id, concurso_numero, round2 (premioTotalCalc premiacoes jogos_resultado), false⟩] },
        premioTotalCalc premiacoes jogos_resultado)
    else
      let cotas_por_usuario := cotasPorUsuario (valorCotaLido db bolao_id)
        (db.cotas.filter (fun c => c.bolao_id == bolao_id))
      let dbf : DB := cotas_por_usuario.foldl
        (creditarUsuario bolao_id (nomeBolaoLido db bolao_id) concurso_numero
          (premioTotalCalc premiacoes jogos_resultado) ((cotas_por_usuario.map Prod.snd).sum)) db
      ({ dbf with premiacoes_bolao := dbf.premiacoes_bolao ++
          [⟨bolao_id, concurso_numero, round2 (premioTotalCalc premiacoes jogos_resultado), true⟩] },
        premioTotalCalc premiacoes jogos_resultado)

/-- `resumo[acertos] = resumo.get(acertos, 0) + 1` on the tier tally dict. -/
def bumpResumo (l : List (ℕ × ℕ)) (k : ℕ) : List (ℕ × ℕ) :=
  match l with
  | [] => [(k, 1)]
  | (a, b) :: rest => if a == k then (a, b + 1) :: rest else (a, b) :: bumpResumo rest k

/-- Initial `{15: 0, 14: 0, 13: 0, 12: 0, 11: 0}` tally. -/
def resumoInicial : List (ℕ × ℕ) := [(15, 0), (14, 0), (13, 0), (12, 0), (11, 0)]

/-- The counter read `(bolao_result.data[0].get("concursos_apurados") or 0) if
bolao_result.data else 0` shared by the apuration operations. -/
def lerConcursosApurados (db : DB) (bolao_id : String) : ℤ :=
  match db.boloes.find? (fun b => b.id == bolao_id) with
  | some b => b.concursos_apurados.getD 0
  | none => 0

/-- Return shape of `apurar_concurso`. -/
structure ConcursoResultado where
  concurso_numero : ℤ
  dezenas : List ℤ
  jogos_resultado : List JogoResultado
  resumo : List (ℕ × ℕ)
  premio_total : ℚ
deriving Repr, DecidableEq

/-- One ticket of the teimosinha scoring loop: compute the hit count, append
one `acertos_concurso` row, extend `jogos_resultado` and (for hits >= 11) the
tier tally. -/
def apurarJogoStep (bolao_id : String) (concurso_numero : ℤ) (resultado_dezenas : List ℤ)
    (acc : DB × List JogoResultado × List (ℕ × ℕ)) (jogo : Jogo) :
    DB × List JogoResultado × List (ℕ × ℕ) :=
  ({ acc.1 with acertos_concurso := acc.1.acertos_concurso ++
      [⟨jogo.id, bolao_id, concurso_numero, calcular_acertos jogo.dezenas resultado_dezenas⟩] },
   acc.2.1 ++ [⟨jogo.id, jogo.dezenas, calcular_acertos jogo.dezenas resultado_dezenas⟩],
   if 11 ≤ calcular_acertos jogo.dezenas resultado_dezenas then
     bumpResumo acc.2.2 (calcular_acertos jogo.dezenas resultado_dezenas)
   else acc.2.2)

/-- Scoring loop of `apurar_concurso` over every ticket of the pool. -/
def apurarJogosLoop (bolao_id : String) (concurso_numero : ℤ) (resultado_dezenas : List ℤ)
    (jogos : List Jogo) (db : DB) : DB × List JogoResultado × List (ℕ × ℕ) :=
  jogos.foldl (apurarJogoStep bolao_id concurso_numero resultado_dezenas) (db, [], resumoInicial)

/-- The counter write of `apurar_concurso`:
`update({"concursos_apurados": apurados_atual + 1})` on every matching pool
row, with `apurados_atual` the `or 0`-guarded read. -/
def incrementaApurados (db : DB) (bolao_id : String) : DB :=
  { db with boloes := db.boloes.map (fun b =>
      if b.id == bolao_id then
        { b with concursos_apurados := some (lerConcursosApurados db bolao_id + 1) }
      else b) }

/-- The tail of `apurar_concurso` and of `apurar_bolao`: resolve the payout
table (from the argument when given, else from the result API) and distribute
when it is non-empty (Python dict truthiness). -/
def distSeHouver (resolver : Resolver) (db : DB) (bolao_id : String) (concurso_numero : ℤ) :
    Option (List (ℕ × ℚ)) → List JogoResultado → DB × ℚ
  | some p, jogos_resultado =>
    if p.isEmpty then (db, 0)
    else calcular_e_distribuir_premio db bolao_id concurso_numero p jogos_resultado
  | none, jogos_resultado =>
    match resolver concurso_numero with
    | some rc =>
      if rc.premiacoes.isEmpty then (db, 0)
      else calcular_e_distribuir_premio db bolao_id concurso_numero rc.premiacoes jogos_resultado
    | none => (db, 0)

/-- `ResultadoService.apurar_concurso` (teimosinha, one contest): insert the
result row unconditionally, score every ticket, bump `concursos_apurados`
(with the `or 0` null guard), then distribute when a non-empty payout table is
supplied or resolvable. -/
def apurar_concurso (resolver : Resolver) (db : DB) (bolao_id : String)
    (concurso_numero : ℤ) (resultado_dezenas : List ℤ)
    (premiacoesOpt : Option (List (ℕ × ℚ))) : DB × ConcursoResultado :=
  let scored := apurarJogosLoop bolao_id concurso_numero resultado_dezenas
    (db.jogos_bolao.filter (fun j => j.bolao_id == bolao_id))
    { db with resultados_concurso := db.resultados_concurso ++
        [⟨bolao_id, concurso_numero, resultado_dezenas⟩] }
  let dist : DB × ℚ := distSeHouver resolver (incrementaApurados scored.1 bolao_id)
    bolao_id concurso_numero premiacoesOpt scored.2.1
  (dist.1, ⟨concurso_numero, resultado_dezenas, scored.2.1, scored.2.2, round2 dist.2⟩)

/-- Return shape of `apurar_bolao`; the empty-pool early return carries no
`concurso_numero` and no `premio_total` key, hence the `Option` fields. -/
structure ApuracaoBolaoOut where
  bolao_id : String
  concurso_numero : Option ℤ
  resultado_dezenas : List ℤ
  jogos_resultado : List JogoResultado
  resumo : List (ℕ × ℕ)
  premio_total : Option ℚ
deriving Repr, DecidableEq

/-- One ticket of the single-contest scoring loop of `apurar_bolao`: compute
the hit count, write it onto the ticket's `acertos` column, extend
`jogos_resultado` and (for hits >= 11) the tier tally. -/
def apurarBolaoJogoStep (resultado_dezenas : List ℤ)
    (acc : DB × List JogoResultado × List (ℕ × ℕ)) (jogo : Jogo) :
    DB × List JogoResultado × List (ℕ × ℕ) :=
  ({ acc.1 with jogos_bolao := acc.1.jogos_bolao.map (fun j =>
      if j.id == jogo.id then
        { j with acertos := some (calcular_acertos jogo.dezenas resultado_dezenas) }
      else j) },
   acc.2.1 ++ [⟨jogo.id, jogo.dezenas, calcular_acertos jogo.dezenas resultado_dezenas⟩],
   if 11 ≤ calcular_acertos jogo.dezenas resultado_dezenas then
     bumpResumo acc.2.2 (calcular_acertos jogo.dezenas resultado_dezenas)
   else acc.2.2)

/-- `ResultadoService.apurar_bolao` (single-contest pool): score and update
every ticket's `acertos` column, set pool status to `"apurado"`, insert the
result row and one hit row per ticket, then resolve payouts and distribute.
Note: the `boloes.resultado_dezenas` column is never written, even though the
function's own docstring step 4 says the draw is saved on the pool row. -/
def apurar_bolao (resolver : Resolver) (db : DB) (bolao_id : String)
    (resultado_dezenas : List ℤ) : DB × ApuracaoBolaoOut :=
  let jogos := db.jogos_bolao.filter (fun j => j.bolao_id == bolao_id)
  if jogos.isEmpty then
    (db, ⟨bolao_id, none, resultado_dezenas, [], [], none⟩)
  else
    let scored : DB × List JogoResultado × List (ℕ × ℕ) :=
      jogos.foldl (apurarBolaoJogoStep resultado_dezenas) (db, [], resumoInicial)
    let db : DB := scored.1
    let jogos_resultado : List JogoResultado := scored.2.1
    let resumo : List (ℕ × ℕ) := scored.2.2
    let db : DB := { db with boloes := db.boloes.map (fun b =>
        if b.id == bolao_id then { b with status := "apurado" } else b) }
    let concurso : ℤ := match db.boloes.find? (fun b => b.id == bolao_id) with
      | some b => b.concurso_numero
      | none => 0
    let db : DB := { db with resultados_concurso := db.resultados_concurso ++
        [⟨bolao_id, concurso, resultado_dezenas⟩] }
    let novosAcertos : List AcertoConcurso :=
      jogos_resultado.map (fun jr => ⟨jr.jogo_id, bolao_id, concurso, jr.acertos⟩)
    let db : DB := { db with acertos_concurso := db.acertos_concurso ++ novosAcertos }
    let dist : DB × ℚ := distSeHouver resolver db bolao_id concurso none jogos_resultado
    (dist.1, ⟨bolao_id, some concurso, resultado_dezenas, jogos_resultado, resumo,
      some (round2 dist.2)⟩)

/-- The completion check shared by `apurar_todos_concursos`,
`apurar_bolao_manual` and `apurar_concurso_individual`: re-read the apurated
counter and set status `"apurado"` once it reaches the contest count. -/
def marcaApuradoSeCompleto (db : DB) (bolao_id : String) (total : ℤ) : DB :=
  if lerConcursosApurados db bolao_id ≥ total then
    { db with boloes := db.boloes.map (fun b =>
        if b.id == bolao_id then { b with status := "apurado" } else b) }
  else db

/-- Return shape of `apurar_todos_concursos`. -/
inductive ApurarTodosOut where
  | bolaoInexistente
  | tudoApurado (bolao_id : String)
  | ok (bolao_id : String) (concurso_numero : ℤ) (concurso_fim : Option ℤ)
      (total_concursos : ℤ) (concursos_apurados : ℤ)
      (resultados : List ConcursoResultado) (erros : List String)
      (premio_total_geral : ℚ)
deriving Repr, DecidableEq

/-- One iteration of the pending-contest loop of `apurar_todos_concursos`:
on resolver miss, collect a textual error and continue; otherwise apurate the
contest and accumulate its result and rounded prize. -/
def apurarPendenteStep (resolver : Resolver) (bolao_id : String)
    (acc : DB × List ConcursoResultado × List String × ℚ) (concurso : ℤ) :
    DB × List ConcursoResultado × List String × ℚ :=
  match resolver concurso with
  | none =>
    (acc.1, acc.2.1,
      acc.2.2.1 ++ ["Concurso " ++ toString concurso ++ ": resultado não disponível"],
      acc.2.2.2)
  | some rc =>
    let r := apurar_concurso resolver acc.1 bolao_id concurso rc.dezenas (some rc.premiacoes)
    (r.1, acc.2.1 ++ [r.2], acc.2.2.1, acc.2.2.2 + r.2.premio_total)

/-- The pending contests of a pool: its contest range minus the contests with
an already-recorded result row (`concursos_ja_apurados`). -/
def pendentesDe (db : DB) (bolao_id : String) (bolao : Bolao) : List ℤ :=
  (concursos_list bolao).filter (fun c =>
    ¬ c ∈ ((db.resultados_concurso.filter
      (fun r => r.bolao_id == bolao_id)).map (fun r => r.concurso_numero)))

/-- `ResultadoService.apurar_todos_concursos`: apurate every pending contest of
a teimosinha pool in ascending order, collecting per-contest errors, then set
status `"apurado"` once the apurated counter reaches the contest count. -/
def apurar_todos_concursos (resolver : Resolver) (db : DB) (bolao_id : String) :
    DB × ApurarTodosOut :=
  match db.boloes.find? (fun b => b.id == bolao_id) with
  | none => (db, .bolaoInexistente)
  | some bolao =>
    if (pendentesDe db bolao_id bolao).isEmpty then
      (db, .tudoApurado bolao_id)
    else
      let run : DB × List ConcursoResultado × List String × ℚ :=
        (pendentesDe db bolao_id bolao).foldl (apurarPendenteStep resolver bolao_id)
          (db, [], [], 0)
      let db : DB := run.1
      let resultados : List ConcursoResultado := run.2.1
      let erros : List String := run.2.2.1
      let premio_total_geral : ℚ := run.2.2.2
      let total : ℤ := total_concursos bolao
      let apurados : ℤ := lerConcursosApurados db bolao_id
      (marcaApuradoSeCompleto db bolao_id total,
       .ok bolao_id bolao.concurso_numero bolao.concurso_fim total apurados
        resultados erros (round2 premio_total_geral))

/-- Rejections raised by the admin apuration endpoints (HTTP 400/404). -/
inductive ApiErr where
  | bolaoInexistente
  | jaApurado
  | semJogos
  | semConcursoNumero
  | foraDoRange
  | concursoJaApurado
  | resultadoIndisponivel
deriving Repr, DecidableEq

/-- The spec's conflict taxonomy: duplicate contest result, or pool already
fully apurated when a single-shot apuration is requested. -/
def ApiErr.isConflict : ApiErr → Bool
  | .jaApurado => true
  | .concursoJaApurado => true
  | _ => false

/-- Endpoint `POST /admin/boloes/{id}/apurar/concurso/{n}`
(`apurar_concurso_individual`): guards (pool exists, not already apurated,
has tickets, contest in range, contest not already recorded, resolver
available), then `apurar_concurso` and the completion status check. -/
def apurar_concurso_individual (resolver : Resolver) (db : DB) (bolao_id : String)
    (concurso_numero : ℤ) : DB × Except ApiErr ConcursoResultado :=
  match db.boloes.find? (fun b => b.id == bolao_id) with
  | none => (db, .error .bolaoInexistente)
  | some bolao =>
    if bolao.status == "apurado" then (db, .error .jaApurado)
    else if (db.jogos_bolao.filter (fun j => j.bolao_id == bolao_id)).isEmpty then
      (db, .error .semJogos)
    else if (if is_teimosinha bolao then decide (concurso_numero ∉ concursos_list bolao)
             else concurso_numero != bolao.concurso_numero) then
      (db, .error .foraDoRange)
    else if ¬ (db.resultados_concurso.filter (fun r =>
        r.bolao_id == bolao_id && r.concurso_numero == concurso_numero)).isEmpty then
      (db, .error .concursoJaApurado)
    else
      match resolver concurso_numero with
      | none => (db, .error .resultadoIndisponivel)
      | some rc =>
        let r := apurar_concurso resolver db bolao_id concurso_numero rc.dezenas
          (some rc.premiacoes)
        ((if is_teimosinha bolao then
            marcaApuradoSeCompleto r.1 bolao_id (total_concursos bolao)
          else r.1), .ok r.2)

/-- Body schema of the manual apuration endpoint. -/
structure ResultadoInput where
  dezenas : List ℤ
  concurso_numero : Option ℤ
deriving Repr, DecidableEq

/-- Return shape of the manual apuration endpoint. -/
inductive ManualOut where
  | concursoRes (r : ConcursoResultado)
  | bolaoRes (r : ApuracaoBolaoOut)
deriving Repr, DecidableEq

/-- Endpoint `POST /admin/boloes/{id}/apurar` (`apurar_bolao_manual`): guards
(pool exists, not apurated, has tickets), then for a teimosinha a single
contest apuration (contest number required and in range) with the completion
check, else the single-shot `apurar_bolao`. `if not resultado.concurso_numero`
is Python truthiness, so an explicit 0 also rejects. -/
def apurar_bolao_manual (resolver : Resolver) (db : DB) (bolao_id : String)
    (resultado : ResultadoInput) : DB × Except ApiErr ManualOut :=
  match db.boloes.find? (fun b => b.id == bolao_id) with
  | none => (db, .error .bolaoInexistente)
  | some bolao =>
    if bolao.status == "apurado" then (db, .error .jaApurado)
    else if (db.jogos_bolao.filter (fun j => j.bolao_id == bolao_id)).isEmpty then
      (db, .error .semJogos)
    else if is_teimosinha bolao then
      match resultado.concurso_numero with
      | none => (db, .error .semConcursoNumero)
      | some c =>
        if c = 0 then (db, .error .semConcursoNumero)
        else if c ∉ concursos_list bolao then (db, .error .foraDoRange)
        else
          let r := apurar_concurso resolver db bolao_id c resultado.dezenas none
          (marcaApuradoSeCompleto r.1 bolao_id (total_concursos bolao),
           .ok (.concursoRes r.2))
    else
      let r := apurar_bolao resolver db bolao_id resultado.dezenas
      (r.1, .ok (.bolaoRes r.2))


/-! ### Association-list lemmas for the per-user dicts -/

theorem bumpUsuario_lookup_self (l : List (String × ℤ)) (uid : String) (q : ℤ) :
    (bumpUsuario l uid q).lookup uid = some ((l.lookup uid).getD 0 + q) := by
  induction l with
  | nil => simp [bumpUsuario, List.lookup]
  | cons p rest ih =>
    obtain ⟨k, v⟩ := p
    by_cases hk : k = uid
    · subst hk
      simp [bumpUsuario, List.lookup]
    · have hb : (k == uid) = false := by simp [hk]
      have hb2 : (uid == k) = false := by simp [Ne.symm hk]
      simp [bumpUsuario, List.lookup, hb, hb2, ih]

theorem bumpUsuario_lookup_ne (l : List (String × ℤ)) (uid k : String) (q : ℤ)
    (h : k ≠ uid) : (bumpUsuario l uid q).lookup k = l.lookup k := by
  have hku : (k == uid) = false := by simp [h]
  induction l with
  | nil => simp [bumpUsuario, List.lookup, hku]
  | cons p rest ih =>
    obtain ⟨a, v⟩ := p
    by_cases ha : a = uid
    · subst ha
      simp [bumpUsuario, List.lookup, hku]
    · have hb : (a == uid) = false := by simp [ha]
      by_cases hk : k = a
      · subst hk
        simp [bumpUsuario, List.lookup, hb, ih]
      · have hb2 : (k == a) = false := by simp [hk]
        simp [bumpUsuario, List.lookup, hb, hb2, ih]

theorem bumpUsuario_keys (l : List (String × ℤ)) (uid : String) (q : ℤ) :
    (bumpUsuario l uid q).map Prod.fst =
      if uid ∈ l.map Prod.fst then l.map Prod.fst else l.map Prod.fst ++ [uid] := by
  induction l with
  | nil => simp [bumpUsuario]
  | cons p rest ih =>
    obtain ⟨k, v⟩ := p
    by_cases hk : k = uid
    · subst hk
      simp [bumpUsuario]
    · simp [bumpUsuario, hk, ih]
      by_cases hm : uid ∈ rest.map Prod.fst <;> simp [hm, Ne.symm hk]

theorem bumpUsuario_mem_keys (l : List (String × ℤ)) (uid k : String) (q : ℤ) :
    k ∈ (bumpUsuario l uid q).map Prod.fst ↔ k ∈ l.map Prod.fst ∨ k = uid := by
  rw [bumpUsuario_keys]
  by_cases hm : uid ∈ l.map Prod.fst
  · simp only [hm, if_true]
    constructor
    · exact fun h => Or.inl h
    · rintro (h | h)
      · exact h
      · exact h ▸ hm
  · simp [hm]

theorem bumpUsuario_keys_nodup (l : List (String × ℤ)) (uid : String) (q : ℤ)
    (h : (l.map Prod.fst).Nodup) : ((bumpUsuario l uid q).map Prod.fst).Nodup := by
  rw [bumpUsuario_keys]
  by_cases hm : uid ∈ l.map Prod.fst
  · simpa [hm]
  · simp [hm, List.nodup_append, h]

theorem bumpUsuario_sum (l : List (String × ℤ)) (uid : String) (q : ℤ) :
    ((bumpUsuario l uid q).map Prod.snd).sum = (l.map Prod.snd).sum + q := by
  induction l with
  | nil => simp [bumpUsuario]
  | cons p rest ih =>
    obtain ⟨k, v⟩ := p
    by_cases hk : k = uid <;> simp [bumpUsuario, hk, ih] <;> ring

theorem bumpUsuario_values_pos (l : List (String × ℤ)) (uid : String) (q : ℤ)
    (hl : ∀ p ∈ l, 0 < p.2) (hq : 0 < q) : ∀ p ∈ bumpUsuario l uid q, 0 < p.2 := by
  induction l with
  | nil =>
    intro p hp
    simp [bumpUsuario] at hp
    simp [hp, hq]
  | cons a rest ih =>
    obtain ⟨k, v⟩ := a
    intro p hp
    by_cases hk : k = uid
    · subst hk
      simp [bumpUsuario] at hp
      rcases hp with hp | hp
      · have hv : 0 < v := hl (k, v) (by simp)
        simp [hp]
        omega
      · exact hl p (by simp [hp])
    · simp [bumpUsuario, hk] at hp
      rcases hp with hp | hp
      · subst hp
        exact hl (k, v) (by simp)
      · exact ih (fun x hx => hl x (by simp [hx])) p hp

theorem lookup_of_mem_keys_nodup (l : List (String × ℤ)) (p : String × ℤ)
    (h : (l.map Prod.fst).Nodup) (hp : p ∈ l) : l.lookup p.1 = some p.2 := by
  induction l with
  | nil => simp at hp
  | cons a rest ih =>
    obtain ⟨k, v⟩ := a
    simp at h
    rcases List.mem_cons.mp hp with hp | hp
    · subst hp
      simp [List.lookup]
    · have hne : p.1 ≠ k := by
        intro hEq
        have hp2 : (k, p.2) ∈ rest := by
          have hp1 : (p.1, p.2) ∈ rest := by simpa using hp
          rwa [hEq] at hp1
        exact h.1 p.2 hp2
      have hb : (p.1 == k) = false := by simp [hne]
      simp [List.lookup, hb, ih h.2 hp]

/-! ### The per-user share dict computes per-buyer share sums -/

/-- Per-buyer total effective share count: the sum of `qtdCota` over the
buyer's purchases (the value `cotas_por_usuario[uid]` ends up holding). -/
def somaQtdUsuario (valor_cota : ℚ) (cotas : List Cota) (uid : String) : ℤ :=
  ((cotas.filter (fun c => c.usuario_id == uid)).map (qtdCota valor_cota)).sum

theorem qtdCota_pos (valor_cota : ℚ) (cota : Cota) : 0 < qtdCota valor_cota cota := by
  unfold qtdCota
  split
  · exact lt_of_lt_of_le one_pos (le_max_left 1 _)
  · exact one_pos

theorem cpuFold_lookup_getD (vc : ℚ) :
    ∀ (cotas : List Cota) (acc : List (String × ℤ)) (uid : String),
    ((cotas.foldl (fun a c => bumpUsuario a c.usuario_id (qtdCota vc c)) acc).lookup uid).getD 0 =
      (acc.lookup uid).getD 0 + somaQtdUsuario vc cotas uid := by
  intro cotas
  induction cotas with
  | nil => intro acc uid; simp [somaQtdUsuario]
  | cons c rest ih =>
    intro acc uid
    by_cases hc : c.usuario_id = uid
    · rw [List.foldl_cons, ih, hc, bumpUsuario_lookup_self]
      simp [somaQtdUsuario, hc]
      ring
    · have hb : (c.usuario_id == uid) = false := by simp [hc]
      rw [List.foldl_cons, ih, bumpUsuario_lookup_ne _ _ _ _ (fun hEq => hc hEq.symm)]
      simp [somaQtdUsuario, List.filter_cons, hb]

theorem cpuFold_mem_keys (vc : ℚ) :
    ∀ (cotas : List Cota) (acc : List (String × ℤ)) (uid : String),
    uid ∈ (cotas.foldl (fun a c => bumpUsuario a c.usuario_id (qtdCota vc c)) acc).map Prod.fst ↔
      uid ∈ acc.map Prod.fst ∨ uid ∈ cotas.map Cota.usuario_id := by
  intro cotas
  induction cotas with
  | nil => intro acc uid; simp
  | cons c rest ih =>
    intro acc uid
    rw [List.foldl_cons, ih, bumpUsuario_mem_keys]
    simp
    tauto

theorem cpuFold_sum (vc : ℚ) :
    ∀ (cotas : List Cota) (acc : List (String × ℤ)),
    ((cotas.foldl (fun a c => bumpUsuario a c.usuario_id (qtdCota vc c)) acc).map Prod.snd).sum =
      (acc.map Prod.snd).sum + (cotas.map (qtdCota vc)).sum := by
  intro cotas
  induction cotas with
  | nil => intro acc; simp
  | cons c rest ih =>
    intro acc
    rw [List.foldl_cons, ih, bumpUsuario_sum]
    simp
    ring

theorem cpuFold_keys_nodup (vc : ℚ) :
    ∀ (cotas : List Cota) (acc : List (String × ℤ)),
    (acc.map Prod.fst).Nodup →
    ((cotas.foldl (fun a c => bumpUsuario a c.usuario_id (qtdCota vc c)) acc).map Prod.fst).Nodup := by
  intro cotas
  induction cotas with
  | nil => intro acc h; simpa using h
  | cons c rest ih =>
    intro acc h
    exact ih _ (bumpUsuario_keys_nodup _ _ _ h)

theorem cpuFold_values_pos (vc : ℚ) :
    ∀ (cotas : List Cota) (acc : List (String × ℤ)),
    (∀ p ∈ acc, 0 < p.2) →
    ∀ p ∈ cotas.foldl (fun a c => bumpUsuario a c.usuario_id (qtdCota vc c)) acc, 0 < p.2 := by
  intro cotas
  induction cotas with
  | nil => intro acc h; simpa using h
  | cons c rest ih =>
    intro acc h
    exact ih _ (bumpUsuario_values_pos _ _ _ h (qtdCota_pos vc c))

theorem cotasPorUsuario_lookup (vc : ℚ) (cotas : List Cota) (uid : String)
    (h : uid ∈ cotas.map Cota.usuario_id) :
    (cotasPorUsuario vc cotas).lookup uid = some (somaQtdUsuario vc cotas uid) := by
  have hmem : uid ∈ (cotasPorUsuario vc cotas).map Prod.fst := by
    rw [cotasPorUsuario, cpuFold_mem_keys]
    exact Or.inr h
  have hsome : ((cotasPorUsuario vc cotas).lookup uid).isSome := by
    rw [List.lookup_isSome_iff]
    simpa [List.keys, List.mem_map] using hmem
  obtain ⟨v, hv⟩ := Option.isSome_iff_exists.mp hsome
  have := cpuFold_lookup_getD vc cotas [] uid
  rw [cotasPorUsuario] at hv
  rw [hv] at this
  simp [List.lookup] at this
  rw [cotasPorUsuario, hv, this]

theorem cotasPorUsuario_sum (vc : ℚ) (cotas : List Cota) :
    ((cotasPorUsuario vc cotas).map Prod.snd).sum = (cotas.map (qtdCota vc)).sum := by
  rw [cotasPorUsuario]
  simpa using cpuFold_sum vc cotas []

theorem cotasPorUsuario_nodup (vc : ℚ) (cotas : List Cota) :
    ((cotasPorUsuario vc cotas).map Prod.fst).Nodup := by
  rw [cotasPorUsuario]
  exact cpuFold_keys_nodup vc cotas [] (by simp)

theorem cotasPorUsuario_values (vc : ℚ) (cotas : List Cota) (p : String × ℤ)
    (hp : p ∈ cotasPorUsuario vc cotas) : p.2 = somaQtdUsuario vc cotas p.1 := by
  have hk : p.1 ∈ cotas.map Cota.usuario_id := by
    have : p.1 ∈ (cotasPorUsuario vc cotas).map Prod.fst := List.mem_map_of_mem Prod.fst hp
    rw [cotasPorUsuario, cpuFold_mem_keys] at this
    simpa using this
  have h1 := lookup_of_mem_keys_nodup _ p (cotasPorUsuario_nodup vc cotas) hp
  have h2 := cotasPorUsuario_lookup vc cotas p.1 hk
  rw [h1] at h2
  exact Option.some_injective _ h2

theorem cotasPorUsuario_mem_users (vc : ℚ) (cotas : List Cota) (p : String × ℤ)
    (hp : p ∈ cotasPorUsuario vc cotas) : p.1 ∈ cotas.map Cota.usuario_id := by
  have : p.1 ∈ (cotasPorUsuario vc cotas).map Prod.fst := List.mem_map_of_mem Prod.fst hp
  rw [cotasPorUsuario, cpuFold_mem_keys] at this
  simpa using this

/-! ### Prize-total computation -/

theorem premioTotalCalc_aux (prem : List (ℕ × ℚ)) :
    ∀ (l : List JogoResultado) (a : ℚ), (∀ j ∈ l, j.acertos < 11) →
    l.foldl (fun acc jogo =>
      if 11 ≤ jogo.acertos then
        match prem.lookup jogo.acertos with
        | some v => acc + v
        | none => acc
      else acc) a = a := by
  intro l
  induction l with
  | nil => intro a _; rfl
  | cons j rest ih =>
    intro a h
    have hj : j.acertos < 11 := h j (by simp)
    rw [List.foldl_cons, if_neg (by omega)]
    exact ih a (fun x hx => h x (by simp [hx]))

/-- When no ticket reaches 11 hits the computed prize total is zero. -/
theorem premioTotalCalc_eq_zero (prem : List (ℕ × ℚ)) (jogos : List JogoResultado)
    (h : ∀ j ∈ jogos, j.acertos < 11) : premioTotalCalc prem jogos = 0 :=
  premioTotalCalc_aux prem jogos 0 h


/-! ### Claim C2: scoring correctness -/

/-- C2: for ticket and draw lists of 15 distinct integers in [1,25], the score
is the cardinality of the set intersection, and it lies in 0..15. -/
theorem calcular_acertos_correto (T D : List ℤ)
    (hTnd : T.Nodup) (hTlen : T.length = 15)
    (hTrange : ∀ x ∈ T, 1 ≤ x ∧ x ≤ 25)
    (hDnd : D.Nodup) (hDlen : D.length = 15)
    (hDrange : ∀ x ∈ D, 1 ≤ x ∧ x ≤ 25) :
    calcular_acertos T D = (T.toFinset ∩ D.toFinset).card ∧ calcular_acertos T D ≤ 15 := by
  refine ⟨rfl, ?_⟩
  calc calcular_acertos T D ≤ T.toFinset.card :=
        Finset.card_le_card Finset.inter_subset_left
    _ = T.length := List.toFinset_card_of_nodup hTnd
    _ = 15 := hTlen

/-- Witness for C2 at a concrete ticket and draw sharing exactly 5 numbers. -/
theorem calcular_acertos_correto_witness :
    calcular_acertos [1,2,3,4,5,6,7,8,9,10,11,12,13,14,15] [11,12,13,14,15,16,17,18,19,20,21,22,23,24,25] =
      (([1,2,3,4,5,6,7,8,9,10,11,12,13,14,15] : List ℤ).toFinset ∩
       ([11,12,13,14,15,16,17,18,19,20,21,22,23,24,25] : List ℤ).toFinset).card ∧
    calcular_acertos [1,2,3,4,5,6,7,8,9,10,11,12,13,14,15] [11,12,13,14,15,16,17,18,19,20,21,22,23,24,25] ≤ 15 :=
  calcular_acertos_correto _ _ (by decide) (by decide) (by decide) (by decide) (by decide) (by decide)


/-! ### Distribution-loop step characterisation -/

theorem creditarUsuario_skip (bid nome : String) (conc : ℤ) (P : ℚ) (tot : ℤ)
    (db : DB) (e : String × ℤ) (h : round2 ((e.2 : ℚ) / (tot : ℚ) * P) ≤ 0) :
    creditarUsuario bid nome conc P tot db e = db := by
  unfold creditarUsuario
  rw [if_pos h]

theorem creditarUsuario_semCarteira (bid nome : String) (conc : ℤ) (P : ℚ) (tot : ℤ)
    (db : DB) (e : String × ℤ) (h : ¬ round2 ((e.2 : ℚ) / (tot : ℚ) * P) ≤ 0)
    (hw : db.carteira.find? (fun c => c.usuario_id == e.1) = none) :
    creditarUsuario bid nome conc P tot db e = db := by
  unfold creditarUsuario
  rw [if_neg h, hw]

theorem creditarUsuario_credita (bid nome : String) (conc : ℤ) (P : ℚ) (tot : ℤ)
    (db : DB) (e : String × ℤ) (w : Carteira)
    (h : ¬ round2 ((e.2 : ℚ) / (tot : ℚ) * P) ≤ 0)
    (hw : db.carteira.find? (fun c => c.usuario_id == e.1) = some w) :
    creditarUsuario bid nome conc P tot db e =
      { db with
        carteira := db.carteira.map (fun c =>
          if c.usuario_id == e.1 then
            { c with saldo_disponivel := round2 (w.saldo_disponivel +
                round2 ((e.2 : ℚ) / (tot : ℚ) * P)) }
          else c),
        transacoes := db.transacoes ++ [transacaoPremio bid nome conc e.1 e.2
          (round2 ((e.2 : ℚ) / (tot : ℚ) * P)) w.saldo_disponivel] } := by
  unfold creditarUsuario
  rw [if_neg h, hw]

theorem creditarUsuario_outros (bid nome : String) (conc : ℤ) (P : ℚ) (tot : ℤ)
    (db : DB) (e : String × ℤ) :
    (creditarUsuario bid nome conc P tot db e).boloes = db.boloes ∧
    (creditarUsuario bid nome conc P tot db e).jogos_bolao = db.jogos_bolao ∧
    (creditarUsuario bid nome conc P tot db e).cotas = db.cotas ∧
    (creditarUsuario bid nome conc P tot db e).resultados_concurso = db.resultados_concurso ∧
    (creditarUsuario bid nome conc P tot db e).acertos_concurso = db.acertos_concurso ∧
    (creditarUsuario bid nome conc P tot db e).premiacoes_bolao = db.premiacoes_bolao := by
  unfold creditarUsuario
  split
  · exact ⟨rfl, rfl, rfl, rfl, rfl, rfl⟩
  · split <;> exact ⟨rfl, rfl, rfl, rfl, rfl, rfl⟩

theorem distLoop_outros (bid nome : String) (conc : ℤ) (P : ℚ) (tot : ℤ) :
    ∀ (L : List (String × ℤ)) (db : DB),
    (L.foldl (creditarUsuario bid nome conc P tot) db).boloes = db.boloes ∧
    (L.foldl (creditarUsuario bid nome conc P tot) db).jogos_bolao = db.jogos_bolao ∧
    (L.foldl (creditarUsuario bid nome conc P tot) db).cotas = db.cotas ∧
    (L.foldl (creditarUsuario bid nome conc P tot) db).resultados_concurso = db.resultados_concurso ∧
    (L.foldl (creditarUsuario bid nome conc P tot) db).acertos_concurso = db.acertos_concurso ∧
    (L.foldl (creditarUsuario bid nome conc P tot) db).premiacoes_bolao = db.premiacoes_bolao := by
  intro L
  induction L with
  | nil => intro db; exact ⟨rfl, rfl, rfl, rfl, rfl, rfl⟩
  | cons e rest ih =>
    intro db
    rw [List.foldl_cons]
    obtain ⟨h1, h2, h3, h4, h5, h6⟩ := ih (creditarUsuario bid nome conc P tot db e)
    obtain ⟨g1, g2, g3, g4, g5, g6⟩ := creditarUsuario_outros bid nome conc P tot db e
    exact ⟨h1.trans g1, h2.trans g2, h3.trans g3, h4.trans g4, h5.trans g5, h6.trans g6⟩

/-- A balance patch targeting one user is invisible to wallet lookups of any
other user. -/
theorem find?_carteira_patch (l : List Carteira) (uid uid' : String) (sp : ℚ)
    (h : uid' ≠ uid) :
    (l.map (fun c => if c.usuario_id == uid then { c with saldo_disponivel := sp } else c)).find?
      (fun c => c.usuario_id == uid') = l.find? (fun c => c.usuario_id == uid') := by
  induction l with
  | nil => rfl
  | cons c rest ih =>
    by_cases hc : c.usuario_id = uid
    · have hb : (c.usuario_id == uid) = true := by simp [hc]
      have hb2 : (c.usuario_id == uid') = false := by simp [hc, Ne.symm h]
      simp only [List.map_cons, hb, if_true]
      rw [List.find?_cons_of_neg _ (by simp [hb2]), List.find?_cons_of_neg _ (by simp [hb2])]
      exact ih
    · have hb : (c.usuario_id == uid) = false := by simp [hc]
      simp only [List.map_cons, hb, if_false]
      by_cases hc2 : c.usuario_id = uid'
      · have hb2 : (c.usuario_id == uid') = true := by simp [hc2]
        rw [List.find?_cons_of_pos _ (by simp [hb2]), List.find?_cons_of_pos _ (by simp [hb2])]
        simp [hb]
      · have hb2 : (c.usuario_id == uid') = false := by simp [hc2]
        rw [List.find?_cons_of_neg _ (by simp [hb2]), List.find?_cons_of_neg _ (by simp [hb2])]
        exact ih


/-! ### Master lemma for the distribution loop -/

/-- Ledger/wallet pairing of one full run of the distribution loop, relative to
the starting store: the appended transactions, one per credited buyer, carry
exactly the credited amounts and the balances read and written. -/
theorem distLoop_master (bid nome : String) (conc : ℤ) (P : ℚ) (tot : ℤ) :
    ∀ (L : List (String × ℤ)) (db : DB), (L.map Prod.fst).Nodup →
    ∃ ts : List Transacao,
      (L.foldl (creditarUsuario bid nome conc P tot) db).transacoes = db.transacoes ++ ts ∧
      (ts.map Transacao.usuario_id).Nodup ∧
      (∀ t ∈ ts, ∃ q, (t.usuario_id, q) ∈ L ∧ t.valor = round2 ((q : ℚ) / (tot : ℚ) * P)) ∧
      ((L.foldl (creditarUsuario bid nome conc P tot) db).carteira = db.carteira.map (fun c =>
        match ts.find? (fun t => t.usuario_id == c.usuario_id) with
        | some t => { c with saldo_disponivel := t.saldo_posterior }
        | none => c)) ∧
      (∀ t ∈ ts,
        t.tipo = "credito" ∧ t.origem = "premio_bolao" ∧ t.referencia_id = bid ∧
        0 < t.valor ∧
        ∃ w, db.carteira.find? (fun c => c.usuario_id == t.usuario_id) = some w ∧
          t.saldo_anterior = w.saldo_disponivel ∧
          t.saldo_posterior = round2 (w.saldo_disponivel + t.valor)) ∧
      (∀ uid q, (uid, q) ∈ L → 0 < round2 ((q : ℚ) / (tot : ℚ) * P) →
        ∀ w, db.carteira.find? (fun c => c.usuario_id == uid) = some w →
          ∃ t ∈ ts, t.usuario_id = uid ∧ t.valor = round2 ((q : ℚ) / (tot : ℚ) * P) ∧
            t.saldo_anterior = w.saldo_disponivel) := by
  intro L
  induction L with
  | nil =>
    intro db _
    refine ⟨[], by simp, by simp, by simp, ?_, by simp, by simp⟩
    simp [List.find?]
  | cons e rest ih =>
    intro db hnd
    have hnd2 : e.1 ∉ rest.map Prod.fst ∧ (rest.map Prod.fst).Nodup := by
      simpa using hnd
    obtain ⟨huid, hndrest⟩ := hnd2
    rw [List.foldl_cons]
    by_cases hp : round2 ((e.2 : ℚ) / (tot : ℚ) * P) ≤ 0
    · rw [creditarUsuario_skip _ _ _ _ _ _ _ hp]
      obtain ⟨ts, h1, h2, h3, h4, h5, h6⟩ := ih db hndrest
      refine ⟨ts, h1, h2, ?_, h4, h5, ?_⟩
      · intro t ht
        obtain ⟨q, hq, hval⟩ := h3 t ht
        exact ⟨q, List.mem_cons_of_mem e hq, hval⟩
      · intro uid q hq hpos w hw
        rcases List.mem_cons.mp hq with hq | hq
        · exfalso
          have h21 : uid = e.1 := congrArg Prod.fst hq
          have h22 : q = e.2 := congrArg Prod.snd hq
          rw [h22] at hpos
          exact absurd hp (not_le.mpr hpos)
        · exact h6 uid q hq hpos w hw
    · cases hw0 : db.carteira.find? (fun c => c.usuario_id == e.1) with
      | none =>
        rw [creditarUsuario_semCarteira _ _ _ _ _ _ _ hp hw0]
        obtain ⟨ts, h1, h2, h3, h4, h5, h6⟩ := ih db hndrest
        refine ⟨ts, h1, h2, ?_, h4, h5, ?_⟩
        · intro t ht
          obtain ⟨q, hq, hval⟩ := h3 t ht
          exact ⟨q, List.mem_cons_of_mem e hq, hval⟩
        · intro uid q hq hpos w hw
          rcases List.mem_cons.mp hq with hq | hq
          · exfalso
            have h21 : uid = e.1 := congrArg Prod.fst hq
            rw [h21, hw0] at hw
            exact Option.noConfusion hw
          · exact h6 uid q hq hpos w hw
      | some w0 =>
        rw [creditarUsuario_credita _ _ _ _ _ _ _ w0 hp hw0]
        set v : ℚ := round2 ((e.2 : ℚ) / (tot : ℚ) * P) with hv
        set t0 : Transacao := transacaoPremio bid nome conc e.1 e.2 v w0.saldo_disponivel with ht0
        set s1 : DB := { db with
          carteira := db.carteira.map (fun c =>
            if c.usuario_id == e.1 then
              { c with saldo_disponivel := round2 (w0.saldo_disponivel + v) }
            else c),
          transacoes := db.transacoes ++ [t0] } with hs1
        obtain ⟨ts, h1, h2, h3, h4, h5, h6⟩ := ih s1 hndrest
        have huid_ts : ∀ t ∈ ts, t.usuario_id ≠ e.1 := by
          intro t ht hEq
          obtain ⟨q, hq, _⟩ := h3 t ht
          have : t.usuario_id ∈ rest.map Prod.fst := by
            exact List.mem_map_of_mem Prod.fst hq
          rw [hEq] at this
          exact huid this
        have hfind_s1 : ∀ uid' : String, uid' ≠ e.1 →
            s1.carteira.find? (fun c => c.usuario_id == uid') =
              db.carteira.find? (fun c => c.usuario_id == uid') := by
          intro uid' hne
          rw [hs1]
          exact find?_carteira_patch db.carteira e.1 uid' (round2 (w0.saldo_disponivel + v)) hne
        have ht0_uid : t0.usuario_id = e.1 := by simp [ht0, transacaoPremio]
        have ht0_post : t0.saldo_posterior = round2 (w0.saldo_disponivel + v) := by
          simp [ht0, transacaoPremio]
        refine ⟨t0 :: ts, ?_, ?_, ?_, ?_, ?_, ?_⟩
        · rw [h1, hs1]
          simp
        · simp only [List.map_cons, List.nodup_cons]
          refine ⟨?_, h2⟩
          intro hmem
          obtain ⟨t, ht, hEq⟩ := List.mem_map.mp hmem
          exact huid_ts t ht (hEq.trans ht0_uid)
        · intro t ht
          rcases List.mem_cons.mp ht with ht | ht
          · refine ⟨e.2, ?_, ?_⟩
            · rw [ht, ht0_uid]
              exact List.mem_cons_self e rest
            · rw [ht]
              simp [ht0, transacaoPremio, hv]
          · obtain ⟨q, hq, hval⟩ := h3 t ht
            exact ⟨q, List.mem_cons_of_mem e hq, hval⟩
        · rw [h4, hs1]
          simp only [List.map_map]
          refine List.map_congr_left ?_
          intro c _
          by_cases hc : c.usuario_id = e.1
          · have hb : (c.usuario_id == e.1) = true := by simp [hc]
            have hnone : ts.find? (fun t => t.usuario_id ==
                ({ c with saldo_disponivel := round2 (w0.saldo_disponivel + v) } : Carteira).usuario_id) = none := by
              apply List.find?_eq_none.mpr
              intro t ht
              simp only [Function.comp]
              have := huid_ts t ht
              simp [this, hc]
            have hsome : (t0 :: ts).find? (fun t => t.usuario_id == c.usuario_id) = some t0 := by
              apply List.find?_cons_of_pos
              simp [ht0_uid, hc]
            simp only [Function.comp_apply, hb, if_true, hnone, hsome, ht0_post]
          · have hb : (c.usuario_id == e.1) = false := by simp [hc]
            have hcc : e.1 ≠ c.usuario_id := fun hEq => hc hEq.symm
            have hhead : (t0.usuario_id == c.usuario_id) = false := by
              rw [ht0_uid]
              simp [hcc]
            have htail : (t0 :: ts).find? (fun t => t.usuario_id == c.usuario_id) =
                ts.find? (fun t => t.usuario_id == c.usuario_id) := by
              apply List.find?_cons_of_neg
              simp [hhead]
            simp only [Function.comp_apply, hb, Bool.false_eq_true, if_false, htail]
        · intro t ht
          rcases List.mem_cons.mp ht with ht | ht
          · subst ht
            refine ⟨by simp [ht0, transacaoPremio], by simp [ht0, transacaoPremio],
              by simp [ht0, transacaoPremio], ?_, w0, ?_, ?_, ?_⟩
            · have : 0 < v := not_le.mp hp
              simpa [ht0, transacaoPremio] using this
            · rw [ht0_uid]
              exact hw0
            · simp [ht0, transacaoPremio]
            · simp [ht0, transacaoPremio]
          · obtain ⟨q1, q2, q3, q4, w, hw, ha, hpost⟩ := h5 t ht
            exact ⟨q1, q2, q3, q4, w, (hfind_s1 t.usuario_id (huid_ts t ht)) ▸ hw, ha, hpost⟩
        · intro uid q hq hpos w hw
          rcases List.mem_cons.mp hq with hq | hq
          · have h21 : uid = e.1 := congrArg Prod.fst hq
            have h22 : q = e.2 := congrArg Prod.snd hq
            have hww : w = w0 := by
              rw [h21, hw0] at hw
              exact Option.some_injective _ hw.symm
            refine ⟨t0, List.mem_cons_self t0 ts, ?_, ?_, ?_⟩
            · rw [ht0_uid, h21]
            · rw [h22]
              simp [ht0, transacaoPremio, hv]
            · rw [hww]
              simp [ht0, transacaoPremio]
          · have hne : uid ≠ e.1 := by
              intro hEq
              have : uid ∈ rest.map Prod.fst := List.mem_map_of_mem Prod.fst hq
              rw [hEq] at this
              exact huid this
            have hw' : s1.carteira.find? (fun c => c.usuario_id == uid) = some w := by
              rw [hfind_s1 uid hne]
              exact hw
            obtain ⟨t, ht, hts⟩ := h6 uid q hq hpos w hw'
            exact ⟨t, List.mem_cons_of_mem t0 ht, hts⟩


/-! ### Branch characterisations of the distributor -/

theorem distribuir_zero (db : DB) (bid : String) (conc : ℤ)
    (prem : List (ℕ × ℚ)) (jr : List JogoResultado)
    (h : premioTotalCalc prem jr ≤ 0) :
    calcular_e_distribuir_premio db bid conc prem jr =
      ({ db with premiacoes_bolao := db.premiacoes_bolao ++ [⟨bid, conc, 0, true⟩] }, 0) := by
  unfold calcular_e_distribuir_premio
  rw [if_pos h]

theorem distribuir_sem_cotas (db : DB) (bid : String) (conc : ℤ)
    (prem : List (ℕ × ℚ)) (jr : List JogoResultado)
    (h1 : ¬ premioTotalCalc prem jr ≤ 0)
    (h2 : (db.cotas.filter (fun c => c.bolao_id == bid)).isEmpty) :
    calcular_e_distribuir_premio db bid conc prem jr =
      ({ db with premiacoes_bolao := db.premiacoes_bolao ++
          [⟨bid, conc, round2 (premioTotalCalc prem jr), false⟩] },
        premioTotalCalc prem jr) := by
  unfold calcular_e_distribuir_premio
  rw [if_neg h1, if_pos h2]

theorem distribuir_credita (db : DB) (bid : String) (conc : ℤ)
    (prem : List (ℕ × ℚ)) (jr : List JogoResultado)
    (h1 : ¬ premioTotalCalc prem jr ≤ 0)
    (h2 : ¬ (db.cotas.filter (fun c => c.bolao_id == bid)).isEmpty) :
    calcular_e_distribuir_premio db bid conc prem jr =
      (let cotas_por_usuario := cotasPorUsuario (valorCotaLido db bid)
          (db.cotas.filter (fun c => c.bolao_id == bid))
       let dbf : DB := cotas_por_usuario.foldl
          (creditarUsuario bid (nomeBolaoLido db bid) conc
            (premioTotalCalc prem jr) ((cotas_por_usuario.map Prod.snd).sum)) db
       ({ dbf with premiacoes_bolao := dbf.premiacoes_bolao ++
            [⟨bid, conc, round2 (premioTotalCalc prem jr), true⟩] },
         premioTotalCalc prem jr)) := by
  unfold calcular_e_distribuir_premio
  rw [if_neg h1, if_neg h2]


/-! ### Claim C4: zero-prize settlement -/

/-- C4: when no ticket reaches 11 hits the distributor writes one prize row
with amount 0 and distributed=true, returns 0, and touches neither wallets nor
the ledger. -/
theorem premio_zero_liquidado (db : DB) (bid : String) (conc : ℤ)
    (prem : List (ℕ × ℚ)) (jr : List JogoResultado)
    (h : ∀ j ∈ jr, j.acertos < 11) :
    calcular_e_distribuir_premio db bid conc prem jr =
      ({ db with premiacoes_bolao := db.premiacoes_bolao ++ [⟨bid, conc, 0, true⟩] }, 0) ∧
    (calcular_e_distribuir_premio db bid conc prem jr).1.carteira = db.carteira ∧
    (calcular_e_distribuir_premio db bid conc prem jr).1.transacoes = db.transacoes := by
  have heq := distribuir_zero db bid conc prem jr (le_of_eq (premioTotalCalc_eq_zero prem jr h))
  rw [heq]
  exact ⟨rfl, rfl, rfl⟩

/-- Concrete store for the zero-prize and no-purchases witnesses: one pool,
one ticket, one sold share, one wallet. -/
def dbPequeno : DB :=
  { boloes := [{ id := "b1", nome := "Bolão Teste", valor_cota := 10, concurso_numero := 100,
                 concurso_fim := none, concursos_apurados := none, status := "fechado",
                 resultado_dezenas := none }]
    jogos_bolao := [{ id := "j1", bolao_id := "b1", dezenas := [1, 2, 3], acertos := none }]
    cotas := [{ bolao_id := "b1", usuario_id := "uA", valor_pago := 20 },
              { bolao_id := "b1", usuario_id := "uB", valor_pago := 10 }]
    carteira := [{ usuario_id := "uA", saldo_disponivel := 5 },
                 { usuario_id := "uB", saldo_disponivel := 0 }]
    transacoes := []
    resultados_concurso := []
    acertos_concurso := []
    premiacoes_bolao := [] }

/-- Witness for C4: a ten-hit ticket earns nothing; the concrete run only adds
the zero prize row. -/
theorem premio_zero_liquidado_witness :
    calcular_e_distribuir_premio dbPequeno "b1" 100 [(11, 30)] [⟨"j1", [1,2,3], 10⟩] =
      ({ dbPequeno with premiacoes_bolao := dbPequeno.premiacoes_bolao ++ [⟨"b1", 100, 0, true⟩] }, 0) ∧
    (calcular_e_distribuir_premio dbPequeno "b1" 100 [(11, 30)] [⟨"j1", [1,2,3], 10⟩]).1.carteira =
      dbPequeno.carteira ∧
    (calcular_e_distribuir_premio dbPequeno "b1" 100 [(11, 30)] [⟨"j1", [1,2,3], 10⟩]).1.transacoes =
      dbPequeno.transacoes :=
  premio_zero_liquidado dbPequeno "b1" 100 [(11, 30)] [⟨"j1", [1,2,3], 10⟩] (by decide)

/-! ### Claim C10: positive prize but no sold shares -/

/-- Store with a pool and ticket but no sold shares, for the C10 witness. -/
def dbSemCotas : DB :=
  { dbPequeno with cotas := [] }

/-- C10: with a positive prize and no share rows the distributor records the
rounded prize undistributed, returns the prize, and touches neither wallets
nor the ledger. -/
theorem premio_sem_cotas_nao_distribuido (db : DB) (bid : String) (conc : ℤ)
    (prem : List (ℕ × ℚ)) (jr : List JogoResultado)
    (h1 : 0 < premioTotalCalc prem jr)
    (h2 : db.cotas.filter (fun c => c.bolao_id == bid) = []) :
    calcular_e_distribuir_premio db bid conc prem jr =
      ({ db with premiacoes_bolao := db.premiacoes_bolao ++
          [⟨bid, conc, round2 (premioTotalCalc prem jr), false⟩] },
        premioTotalCalc prem jr) ∧
    (calcular_e_distribuir_premio db bid conc prem jr).1.carteira = db.carteira ∧
    (calcular_e_distribuir_premio db bid conc prem jr).1.transacoes = db.transacoes := by
  have heq := distribuir_sem_cotas db bid conc prem jr (not_le.mpr h1) (by simp [h2])
  rw [heq]
  exact ⟨rfl, rfl, rfl⟩

/-- Witness for C10: an eleven-hit ticket earns 30.00 but no shares were sold,
so the prize row is written undistributed and nothing else changes. -/
theorem premio_sem_cotas_nao_distribuido_witness :
    calcular_e_distribuir_premio dbSemCotas "b1" 100 [(11, 30)] [⟨"j1", [1,2,3], 11⟩] =
      ({ dbSemCotas with premiacoes_bolao := dbSemCotas.premiacoes_bolao ++
          [⟨"b1", 100, round2 (premioTotalCalc [(11, 30)] [⟨"j1", [1,2,3], 11⟩]), false⟩] },
        premioTotalCalc [(11, 30)] [⟨"j1", [1,2,3], 11⟩]) ∧
    (calcular_e_distribuir_premio dbSemCotas "b1" 100 [(11, 30)] [⟨"j1", [1,2,3], 11⟩]).1.carteira =
      dbSemCotas.carteira ∧
    (calcular_e_distribuir_premio dbSemCotas "b1" 100 [(11, 30)] [⟨"j1", [1,2,3], 11⟩]).1.transacoes =
      dbSemCotas.transacoes :=
  premio_sem_cotas_nao_distribuido dbSemCotas "b1" 100 [(11, 30)] [⟨"j1", [1,2,3], 11⟩]
    (by simp [premioTotalCalc, List.lookup]) (by decide)

/-! ### Claim C5: every wallet mutation pairs with exactly one ledger credit -/

/-- C5: one full distributor run appends a list of ledger rows, at most one per
buyer; wallets change exactly as those rows say, and each row is a credit with
origin premio_bolao referencing the pool, amount positive, before-balance equal
to the wallet balance read, and after-balance the rounded sum written back. -/
theorem credito_pareado_com_transacao (db : DB) (bid : String) (conc : ℤ)
    (prem : List (ℕ × ℚ)) (jr : List JogoResultado) :
    ∃ ts : List Transacao,
      (calcular_e_distribuir_premio db bid conc prem jr).1.transacoes = db.transacoes ++ ts ∧
      (ts.map Transacao.usuario_id).Nodup ∧
      ((calcular_e_distribuir_premio db bid conc prem jr).1.carteira = db.carteira.map (fun c =>
        match ts.find? (fun t => t.usuario_id == c.usuario_id) with
        | some t => { c with saldo_disponivel := t.saldo_posterior }
        | none => c)) ∧
      ∀ t ∈ ts, t.tipo = "credito" ∧ t.origem = "premio_bolao" ∧ t.referencia_id = bid ∧
        0 < t.valor ∧
        ∃ w, db.carteira.find? (fun c => c.usuario_id == t.usuario_id) = some w ∧
          t.saldo_anterior = w.saldo_disponivel ∧
          t.saldo_posterior = round2 (w.saldo_disponivel + t.valor) := by
  by_cases h1 : premioTotalCalc prem jr ≤ 0
  · rw [distribuir_zero db bid conc prem jr h1]
    refine ⟨[], by simp, by simp, ?_, by simp⟩
    simp [List.find?]
  · by_cases h2 : (db.cotas.filter (fun c => c.bolao_id == bid)).isEmpty
    · rw [distribuir_sem_cotas db bid conc prem jr h1 h2]
      refine ⟨[], by simp, by simp, ?_, by simp⟩
      simp [List.find?]
    · rw [distribuir_credita db bid conc prem jr h1 h2]
      obtain ⟨ts, g1, g2, g3, g4, g5, g6⟩ := distLoop_master bid (nomeBolaoLido db bid) conc
        (premioTotalCalc prem jr)
        (((cotasPorUsuario (valorCotaLido db bid)
            (db.cotas.filter (fun c => c.bolao_id == bid))).map Prod.snd).sum)
        (cotasPorUsuario (valorCotaLido db bid) (db.cotas.filter (fun c => c.bolao_id == bid)))
        db (cotasPorUsuario_nodup _ _)
      exact ⟨ts, g1, g2, g4, g5⟩


/-! ### Claim C1: proportional distribution -/

theorem mem_of_lookup_some {l : List (String × ℤ)} {k : String} {v : ℤ}
    (h : l.lookup k = some v) : (k, v) ∈ l := by
  induction l with
  | nil => simp [List.lookup] at h
  | cons p rest ih =>
    obtain ⟨a, b⟩ := p
    by_cases hk : k = a
    · subst hk
      simp [List.lookup] at h
      simp [h]
    · have hb : (k == a) = false := by simp [hk]
      simp [List.lookup, hb] at h
      exact List.mem_cons_of_mem _ (ih h)

theorem find?_transacao_of_mem (ts : List Transacao) (t : Transacao) (uid : String)
    (hnd : (ts.map Transacao.usuario_id).Nodup) (ht : t ∈ ts) (hu : t.usuario_id = uid) :
    ts.find? (fun x => x.usuario_id == uid) = some t := by
  induction ts with
  | nil => simp at ht
  | cons a rest ih =>
    simp only [List.map_cons, List.nodup_cons] at hnd
    rcases List.mem_cons.mp ht with ht | ht
    · subst ht
      exact List.find?_cons_of_pos _ (by simp [hu])
    · have hne : a.usuario_id ≠ uid := by
        intro hEq
        have hmem : uid ∈ rest.map Transacao.usuario_id :=
          hu ▸ List.mem_map_of_mem Transacao.usuario_id ht
        exact hnd.1 (hEq ▸ hmem)
      rw [List.find?_cons_of_neg _ (by simp [hne])]
      exact ih hnd.2 ht

theorem find?_carteira_mapF (l : List Carteira) (uid : String) (F : Carteira → Carteira)
    (hF : ∀ c, (F c).usuario_id = c.usuario_id) :
    (l.map F).find? (fun c => c.usuario_id == uid) =
      (l.find? (fun c => c.usuario_id == uid)).map F := by
  rw [List.find?_map]
  have hpred : ((fun c => c.usuario_id == uid) ∘ F) = (fun c : Carteira => c.usuario_id == uid) := by
    funext c
    simp [Function.comp, hF]
  rw [hpred]

/-- C1: with a positive unit price and positive prize total, the distributor
derives each buyer's share count as the sum of `max(1, round(paid / unit))`
over that buyer's purchases, takes the total share count as the sum over all
purchases, and credits each buyer whose rounded proportional prize
`round(P * s_i / S, 2)` is positive exactly that amount onto their wallet
balance (rounded to cents). -/
theorem distribuicao_proporcional_correta (db : DB) (bid : String) (conc : ℤ)
    (prem : List (ℕ × ℚ)) (jr : List JogoResultado) (bolao : Bolao)
    (hb : db.boloes.find? (fun b => b.id == bid) = some bolao)
    (hu : 0 < bolao.valor_cota)
    (hP : 0 < premioTotalCalc prem jr) :
    ∀ uid ∈ (db.cotas.filter (fun c => c.bolao_id == bid)).map Cota.usuario_id,
      ((cotasPorUsuario (valorCotaLido db bid) (db.cotas.filter (fun c => c.bolao_id == bid))).lookup uid =
        some ((((db.cotas.filter (fun c => c.bolao_id == bid)).filter
            (fun c => c.usuario_id == uid)).map
          (fun c => max 1 (pyRound (c.valor_pago / bolao.valor_cota)))).sum)) ∧
      (((cotasPorUsuario (valorCotaLido db bid) (db.cotas.filter (fun c => c.bolao_id == bid))).map
          Prod.snd).sum =
        ((db.cotas.filter (fun c => c.bolao_id == bid)).map
          (fun c => max 1 (pyRound (c.valor_pago / bolao.valor_cota)))).sum) ∧
      (0 < round2 (premioTotalCalc prem jr *
          (((((db.cotas.filter (fun c => c.bolao_id == bid)).filter
              (fun c => c.usuario_id == uid)).map
            (fun c => max 1 (pyRound (c.valor_pago / bolao.valor_cota)))).sum : ℤ) : ℚ) /
          ((((db.cotas.filter (fun c => c.bolao_id == bid)).map
            (fun c => max 1 (pyRound (c.valor_pago / bolao.valor_cota)))).sum : ℤ) : ℚ)) →
        ∀ w, db.carteira.find? (fun c => c.usuario_id == uid) = some w →
          (calcular_e_distribuir_premio db bid conc prem jr).1.carteira.find?
              (fun c => c.usuario_id == uid) =
            some { w with saldo_disponivel := round2 (w.saldo_disponivel +
              round2 (premioTotalCalc prem jr *
                (((((db.cotas.filter (fun c => c.bolao_id == bid)).filter
                    (fun c => c.usuario_id == uid)).map
                  (fun c => max 1 (pyRound (c.valor_pago / bolao.valor_cota)))).sum : ℤ) : ℚ) /
                ((((db.cotas.filter (fun c => c.bolao_id == bid)).map
                  (fun c => max 1 (pyRound (c.valor_pago / bolao.valor_cota)))).sum : ℤ) : ℚ))) }) := by
  intro uid hmem
  have hvc : valorCotaLido db bid = bolao.valor_cota := by
    unfold valorCotaLido
    rw [hb]
  have hq : ∀ c : Cota, qtdCota bolao.valor_cota c =
      max 1 (pyRound (c.valor_pago / bolao.valor_cota)) := by
    intro c
    unfold qtdCota
    rw [if_pos hu]
  have hsoma : somaQtdUsuario bolao.valor_cota (db.cotas.filter (fun c => c.bolao_id == bid)) uid =
      (((db.cotas.filter (fun c => c.bolao_id == bid)).filter (fun c => c.usuario_id == uid)).map
        (fun c => max 1 (pyRound (c.valor_pago / bolao.valor_cota)))).sum := by
    unfold somaQtdUsuario
    congr 1
    exact List.map_congr_left (fun c _ => hq c)
  have hsum : ((db.cotas.filter (fun c => c.bolao_id == bid)).map (qtdCota bolao.valor_cota)).sum =
      ((db.cotas.filter (fun c => c.bolao_id == bid)).map
        (fun c => max 1 (pyRound (c.valor_pago / bolao.valor_cota)))).sum := by
    congr 1
    exact List.map_congr_left (fun c _ => hq c)
  have h1 : (cotasPorUsuario (valorCotaLido db bid)
      (db.cotas.filter (fun c => c.bolao_id == bid))).lookup uid =
      some (somaQtdUsuario bolao.valor_cota (db.cotas.filter (fun c => c.bolao_id == bid)) uid) := by
    rw [hvc]
    exact cotasPorUsuario_lookup bolao.valor_cota _ uid hmem
  have h2 : ((cotasPorUsuario (valorCotaLido db bid)
      (db.cotas.filter (fun c => c.bolao_id == bid))).map Prod.snd).sum =
      ((db.cotas.filter (fun c => c.bolao_id == bid)).map (qtdCota bolao.valor_cota)).sum := by
    rw [hvc]
    exact cotasPorUsuario_sum bolao.valor_cota _
  refine ⟨by rw [h1, hsoma], by rw [h2, hsum], ?_⟩
  intro hpos w hw
  have hne : ¬ (db.cotas.filter (fun c => c.bolao_id == bid)).isEmpty := by
    rcases List.mem_map.mp hmem with ⟨c, hc, _⟩
    intro hEmpty
    rw [List.isEmpty_iff] at hEmpty
    rw [hEmpty] at hc
    simp at hc
  rw [distribuir_credita db bid conc prem jr (not_le.mpr hP) hne]
  obtain ⟨ts, g1, g2, g3, g4, g5, g6⟩ := distLoop_master bid (nomeBolaoLido db bid) conc
    (premioTotalCalc prem jr)
    (((cotasPorUsuario (valorCotaLido db bid)
        (db.cotas.filter (fun c => c.bolao_id == bid))).map Prod.snd).sum)
    (cotasPorUsuario (valorCotaLido db bid) (db.cotas.filter (fun c => c.bolao_id == bid)))
    db (cotasPorUsuario_nodup _ _)
  have hentry : (uid, somaQtdUsuario bolao.valor_cota
      (db.cotas.filter (fun c => c.bolao_id == bid)) uid) ∈
      cotasPorUsuario (valorCotaLido db bid) (db.cotas.filter (fun c => c.bolao_id == bid)) :=
    mem_of_lookup_some h1
  have hcreditEq : ((somaQtdUsuario bolao.valor_cota
        (db.cotas.filter (fun c => c.bolao_id == bid)) uid : ℤ) : ℚ) /
        ((((cotasPorUsuario (valorCotaLido db bid)
          (db.cotas.filter (fun c => c.bolao_id == bid))).map Prod.snd).sum : ℤ) : ℚ) *
        premioTotalCalc prem jr =
      premioTotalCalc prem jr *
        (((((db.cotas.filter (fun c => c.bolao_id == bid)).filter
            (fun c => c.usuario_id == uid)).map
          (fun c => max 1 (pyRound (c.valor_pago / bolao.valor_cota)))).sum : ℤ) : ℚ) /
        ((((db.cotas.filter (fun c => c.bolao_id == bid)).map
          (fun c => max 1 (pyRound (c.valor_pago / bolao.valor_cota)))).sum : ℤ) : ℚ) := by
    rw [hsoma, h2, hsum]
    ring
  have hpos2 : 0 < round2 (((somaQtdUsuario bolao.valor_cota
        (db.cotas.filter (fun c => c.bolao_id == bid)) uid : ℤ) : ℚ) /
        ((((cotasPorUsuario (valorCotaLido db bid)
          (db.cotas.filter (fun c => c.bolao_id == bid))).map Prod.snd).sum : ℤ) : ℚ) *
        premioTotalCalc prem jr) := by
    rw [hcreditEq]
    exact hpos
  obtain ⟨t, ht, htu, htv, hta⟩ := g6 uid _ hentry hpos2 w hw
  have hF : ∀ c : Carteira, ((fun (c : Carteira) =>
      match ts.find? (fun (t : Transacao) => t.usuario_id == c.usuario_id) with
      | some t => { c with saldo_disponivel := t.saldo_posterior }
      | none => c) c).usuario_id = c.usuario_id := by
    intro c
    simp only
    rcases hfc : ts.find? (fun (t : Transacao) => t.usuario_id == c.usuario_id) with _ | t2 <;>
      simp [hfc]
  have hfindF := find?_carteira_mapF db.carteira uid _ hF
  have hts : ts.find? (fun x => x.usuario_id == uid) = some t :=
    find?_transacao_of_mem ts t uid g2 ht htu
  have hwuid : w.usuario_id = uid := by
    have := List.find?_some hw
    simpa using this
  obtain ⟨q1, q2, q3, q4, w2, hw2, ha2, hpost2⟩ := g5 t ht
  have hww : w2 = w := by
    rw [htu] at hw2
    rw [hw] at hw2
    exact Option.some_injective _ hw2.symm
  simp only
  rw [g4, hfindF, hw]
  simp only [Option.map_some']
  rw [hwuid, hts]
  simp only
  have hfinal : t.saldo_posterior = round2 (w.saldo_disponivel +
      round2 (premioTotalCalc prem jr *
        (((((db.cotas.filter (fun c => c.bolao_id == bid)).filter
            (fun c => c.usuario_id == uid)).map
          (fun c => max 1 (pyRound (c.valor_pago / bolao.valor_cota)))).sum : ℤ) : ℚ) /
        ((((db.cotas.filter (fun c => c.bolao_id == bid)).map
          (fun c => max 1 (pyRound (c.valor_pago / bolao.valor_cota)))).sum : ℤ) : ℚ))) := by
    rw [hpost2, hww, htv, hcreditEq]
  rw [hfinal]


/-- Witness for C1: unit price 10, buyer uA paid 20 (2 shares) and uB paid 10
(1 share); one eleven-hit ticket worth 30.00. uA's wallet (balance 5) ends at
5 + round(30 * 2/3, 2) = 25. -/
theorem distribuicao_proporcional_correta_witness :
    0 < premioTotalCalc [(11,30)] [⟨"j1",[1,2,3],11⟩] ∧
    (calcular_e_distribuir_premio dbPequeno "b1" 100 [(11,30)] [⟨"j1",[1,2,3],11⟩]).1.carteira.find?
        (fun c => c.usuario_id == "uA") =
      some { usuario_id := "uA", saldo_disponivel := 25 } := by
  have hP : 0 < premioTotalCalc [(11,30)] [⟨"j1",[1,2,3],11⟩] := by
    simp [premioTotalCalc, List.lookup]
  refine ⟨hP, ?_⟩
  have h := distribuicao_proporcional_correta dbPequeno "b1" 100 [(11,30)] [⟨"j1",[1,2,3],11⟩]
    ⟨"b1", "Bolão Teste", 10, 100, none, none, "fechado", none⟩ (by decide) (by norm_num) hP
  have h3 := (h "uA" (by decide)).2.2
  have hprem : premioTotalCalc [(11,30)] [⟨"j1",[1,2,3],11⟩] = 30 := by
    simp [premioTotalCalc, List.lookup]
  have hsA : ((((dbPequeno.cotas.filter (fun c => c.bolao_id == "b1")).filter
      (fun c => c.usuario_id == "uA")).map
      (fun c => max 1 (pyRound (c.valor_pago /
        (⟨"b1", "Bolão Teste", 10, 100, none, none, "fechado", none⟩ : Bolao).valor_cota)))).sum : ℤ) = 2 := by
    simp only [dbPequeno]
    simp only [List.filter_cons]
    norm_num [pyRound]
    simp
  have hsS : (((dbPequeno.cotas.filter (fun c => c.bolao_id == "b1")).map
      (fun c => max 1 (pyRound (c.valor_pago /
        (⟨"b1", "Bolão Teste", 10, 100, none, none, "fechado", none⟩ : Bolao).valor_cota)))).sum : ℤ) = 3 := by
    simp only [dbPequeno]
    simp only [List.filter_cons]
    norm_num [pyRound]
  rw [hprem, hsA, hsS] at h3
  have hcred : round2 ((30:ℚ) * ((2:ℤ):ℚ) / ((3:ℤ):ℚ)) = 20 := by
    norm_num [round2, pyRound]
  rw [hcred] at h3
  have h4 := h3 (by norm_num) ⟨"uA", 5⟩ (by decide)
  rw [h4]
  norm_num [round2, pyRound]


/-! ### Table-preservation lemmas for the orchestrator -/

theorem distribuir_outros (db : DB) (bid : String) (conc : ℤ)
    (prem : List (ℕ × ℚ)) (jr : List JogoResultado) :
    (calcular_e_distribuir_premio db bid conc prem jr).1.boloes = db.boloes ∧
    (calcular_e_distribuir_premio db bid conc prem jr).1.jogos_bolao = db.jogos_bolao ∧
    (calcular_e_distribuir_premio db bid conc prem jr).1.cotas = db.cotas ∧
    (calcular_e_distribuir_premio db bid conc prem jr).1.resultados_concurso =
      db.resultados_concurso ∧
    (calcular_e_distribuir_premio db bid conc prem jr).1.acertos_concurso =
      db.acertos_concurso := by
  by_cases h1 : premioTotalCalc prem jr ≤ 0
  · rw [distribuir_zero db bid conc prem jr h1]
    exact ⟨rfl, rfl, rfl, rfl, rfl⟩
  · by_cases h2 : (db.cotas.filter (fun c => c.bolao_id == bid)).isEmpty
    · rw [distribuir_sem_cotas db bid conc prem jr h1 h2]
      exact ⟨rfl, rfl, rfl, rfl, rfl⟩
    · rw [distribuir_credita db bid conc prem jr h1 h2]
      obtain ⟨g1, g2, g3, g4, g5, g6⟩ := distLoop_outros bid (nomeBolaoLido db bid) conc
        (premioTotalCalc prem jr)
        (((cotasPorUsuario (valorCotaLido db bid)
            (db.cotas.filter (fun c => c.bolao_id == bid))).map Prod.snd).sum)
        (cotasPorUsuario (valorCotaLido db bid) (db.cotas.filter (fun c => c.bolao_id == bid)))
        db
      exact ⟨g1, g2, g3, g4, g5⟩

theorem distSeHouver_outros (resolver : Resolver) (db : DB) (bid : String) (conc : ℤ)
    (pOpt : Option (List (ℕ × ℚ))) (jr : List JogoResultado) :
    (distSeHouver resolver db bid conc pOpt jr).1.boloes = db.boloes ∧
    (distSeHouver resolver db bid conc pOpt jr).1.jogos_bolao = db.jogos_bolao ∧
    (distSeHouver resolver db bid conc pOpt jr).1.cotas = db.cotas ∧
    (distSeHouver resolver db bid conc pOpt jr).1.resultados_concurso = db.resultados_concurso ∧
    (distSeHouver resolver db bid conc pOpt jr).1.acertos_concurso = db.acertos_concurso := by
  rcases pOpt with _ | p
  · unfold distSeHouver
    rcases hres : resolver conc with _ | rc
    · exact ⟨rfl, rfl, rfl, rfl, rfl⟩
    · simp only [hres]
      by_cases hp : rc.premiacoes.isEmpty
      · rw [if_pos hp]
        exact ⟨rfl, rfl, rfl, rfl, rfl⟩
      · rw [if_neg hp]
        exact distribuir_outros db bid conc rc.premiacoes jr
  · unfold distSeHouver
    simp only
    by_cases hp : p.isEmpty
    · rw [if_pos hp]
      exact ⟨rfl, rfl, rfl, rfl, rfl⟩
    · rw [if_neg hp]
      exact distribuir_outros db bid conc p jr

theorem distSeHouver_boloes (resolver : Resolver) (db : DB) (bid : String) (conc : ℤ)
    (pOpt : Option (List (ℕ × ℚ))) (jr : List JogoResultado) :
    (distSeHouver resolver db bid conc pOpt jr).1.boloes = db.boloes :=
  (distSeHouver_outros resolver db bid conc pOpt jr).1

theorem distSeHouver_jogos (resolver : Resolver) (db : DB) (bid : String) (conc : ℤ)
    (pOpt : Option (List (ℕ × ℚ))) (jr : List JogoResultado) :
    (distSeHouver resolver db bid conc pOpt jr).1.jogos_bolao = db.jogos_bolao :=
  (distSeHouver_outros resolver db bid conc pOpt jr).2.1

theorem distSeHouver_resultados (resolver : Resolver) (db : DB) (bid : String) (conc : ℤ)
    (pOpt : Option (List (ℕ × ℚ))) (jr : List JogoResultado) :
    (distSeHouver resolver db bid conc pOpt jr).1.resultados_concurso = db.resultados_concurso :=
  (distSeHouver_outros resolver db bid conc pOpt jr).2.2.2.1

theorem apurarJogosLoopAux (bid : String) (conc : ℤ) (dz : List ℤ) :
    ∀ (jogos : List Jogo) (acc : DB × List JogoResultado × List (ℕ × ℕ)),
    ((jogos.foldl (apurarJogoStep bid conc dz) acc).1.boloes = acc.1.boloes ∧
     (jogos.foldl (apurarJogoStep bid conc dz) acc).1.jogos_bolao = acc.1.jogos_bolao ∧
     (jogos.foldl (apurarJogoStep bid conc dz) acc).1.cotas = acc.1.cotas ∧
     (jogos.foldl (apurarJogoStep bid conc dz) acc).1.carteira = acc.1.carteira ∧
     (jogos.foldl (apurarJogoStep bid conc dz) acc).1.transacoes = acc.1.transacoes ∧
     (jogos.foldl (apurarJogoStep bid conc dz) acc).1.resultados_concurso =
       acc.1.resultados_concurso ∧
     (jogos.foldl (apurarJogoStep bid conc dz) acc).1.premiacoes_bolao =
       acc.1.premiacoes_bolao) := by
  intro jogos
  induction jogos with
  | nil => intro acc; exact ⟨rfl, rfl, rfl, rfl, rfl, rfl, rfl⟩
  | cons j rest ih =>
    intro acc
    rw [List.foldl_cons]
    obtain ⟨h1, h2, h3, h4, h5, h6, h7⟩ := ih (apurarJogoStep bid conc dz acc j)
    exact ⟨h1, h2, h3, h4, h5, h6, h7⟩

theorem apurarJogosLoop_boloes (bid : String) (conc : ℤ) (dz : List ℤ)
    (jogos : List Jogo) (db : DB) :
    (apurarJogosLoop bid conc dz jogos db).1.boloes = db.boloes :=
  (apurarJogosLoopAux bid conc dz jogos (db, [], resumoInicial)).1

theorem apurarJogosLoop_jogos (bid : String) (conc : ℤ) (dz : List ℤ)
    (jogos : List Jogo) (db : DB) :
    (apurarJogosLoop bid conc dz jogos db).1.jogos_bolao = db.jogos_bolao :=
  (apurarJogosLoopAux bid conc dz jogos (db, [], resumoInicial)).2.1

theorem apurarJogosLoop_resultados (bid : String) (conc : ℤ) (dz : List ℤ)
    (jogos : List Jogo) (db : DB) :
    (apurarJogosLoop bid conc dz jogos db).1.resultados_concurso = db.resultados_concurso :=
  (apurarJogosLoopAux bid conc dz jogos (db, [], resumoInicial)).2.2.2.2.2.1

theorem lerConcursosApurados_congr (db1 db2 : DB) (bid : String)
    (h : db1.boloes = db2.boloes) :
    lerConcursosApurados db1 bid = lerConcursosApurados db2 bid := by
  unfold lerConcursosApurados
  rw [h]

theorem incrementaApurados_boloes (db : DB) (bid : String) :
    (incrementaApurados db bid).boloes = db.boloes.map (fun b =>
      if b.id == bid then
        { b with concursos_apurados := some (lerConcursosApurados db bid + 1) }
      else b) := rfl

/-! ### Effects of one `apurar_concurso` call -/

theorem apurar_concurso_jogos (resolver : Resolver) (db : DB) (bid : String)
    (conc : ℤ) (dz : List ℤ) (pOpt : Option (List (ℕ × ℚ))) :
    (apurar_concurso resolver db bid conc dz pOpt).1.jogos_bolao = db.jogos_bolao := by
  unfold apurar_concurso
  simp only
  rw [distSeHouver_jogos]
  show (apurarJogosLoop bid conc dz _ _).1.jogos_bolao = db.jogos_bolao
  rw [apurarJogosLoop_jogos]

theorem apurar_concurso_resultados (resolver : Resolver) (db : DB) (bid : String)
    (conc : ℤ) (dz : List ℤ) (pOpt : Option (List (ℕ × ℚ))) :
    (apurar_concurso resolver db bid conc dz pOpt).1.resultados_concurso =
      db.resultados_concurso ++ [⟨bid, conc, dz⟩] := by
  unfold apurar_concurso
  simp only
  rw [distSeHouver_resultados]
  show (apurarJogosLoop bid conc dz _ _).1.resultados_concurso = _
  rw [apurarJogosLoop_resultados]

theorem apurar_concurso_boloes (resolver : Resolver) (db : DB) (bid : String)
    (conc : ℤ) (dz : List ℤ) (pOpt : Option (List (ℕ × ℚ))) :
    (apurar_concurso resolver db bid conc dz pOpt).1.boloes =
      db.boloes.map (fun b =>
        if b.id == bid then
          { b with concursos_apurados := some (lerConcursosApurados db bid + 1) }
        else b) := by
  unfold apurar_concurso
  simp only
  rw [distSeHouver_boloes, incrementaApurados_boloes]
  have hb2 : (apurarJogosLoop bid conc dz (db.jogos_bolao.filter (fun j => j.bolao_id == bid))
      { db with resultados_concurso := db.resultados_concurso ++
          [⟨bid, conc, dz⟩] }).1.boloes = db.boloes :=
    apurarJogosLoop_boloes bid conc dz _ _
  have hler := lerConcursosApurados_congr _ db bid hb2
  rw [hler, hb2]

theorem apurar_concurso_ret (resolver : Resolver) (db : DB) (bid : String)
    (conc : ℤ) (dz : List ℤ) (pOpt : Option (List (ℕ × ℚ))) :
    (apurar_concurso resolver db bid conc dz pOpt).2.concurso_numero = conc ∧
    (apurar_concurso resolver db bid conc dz pOpt).2.dezenas = dz :=
  ⟨rfl, rfl⟩


/-! ### Pool-row lookups through patches -/

theorem find?_boloes_patch (l : List Bolao) (bid : String) (f : Bolao → Bolao)
    (hf : ∀ b, (f b).id = b.id) :
    (l.map (fun b => if b.id == bid then f b else b)).find? (fun b => b.id == bid) =
      (l.find? (fun b => b.id == bid)).map f := by
  induction l with
  | nil => rfl
  | cons b rest ih =>
    by_cases hb : b.id = bid
    · have hbt : (b.id == bid) = true := by simp [hb]
      simp only [List.map_cons, hbt, if_true]
      rw [List.find?_cons_of_pos _ (by simp [hf b, hb]),
        List.find?_cons_of_pos _ (by simp [hb])]
      simp
    · have hbt : (b.id == bid) = false := by simp [hb]
      simp only [List.map_cons, hbt, Bool.false_eq_true, if_false]
      rw [List.find?_cons_of_neg _ (by simp [hb]), List.find?_cons_of_neg _ (by simp [hb])]
      exact ih

theorem apurar_concurso_find (resolver : Resolver) (db : DB) (bid : String)
    (conc : ℤ) (dz : List ℤ) (pOpt : Option (List (ℕ × ℚ))) (b0 : Bolao)
    (h : db.boloes.find? (fun b => b.id == bid) = some b0) :
    (apurar_concurso resolver db bid conc dz pOpt).1.boloes.find? (fun b => b.id == bid) =
      some { b0 with concursos_apurados := some (b0.concursos_apurados.getD 0 + 1) } := by
  rw [apurar_concurso_boloes,
    find?_boloes_patch db.boloes bid
      (fun b => { b with concursos_apurados := some (lerConcursosApurados db bid + 1) })
      (fun b => rfl), h, Option.map_some']
  have hler : lerConcursosApurados db bid = b0.concursos_apurados.getD 0 := by
    unfold lerConcursosApurados
    rw [h]
  rw [hler]

theorem marcaApurado_jogos (db : DB) (bid : String) (total : ℤ) :
    (marcaApuradoSeCompleto db bid total).jogos_bolao = db.jogos_bolao := by
  unfold marcaApuradoSeCompleto
  split <;> rfl

theorem marcaApurado_resultados (db : DB) (bid : String) (total : ℤ) :
    (marcaApuradoSeCompleto db bid total).resultados_concurso = db.resultados_concurso := by
  unfold marcaApuradoSeCompleto
  split <;> rfl

theorem marcaApurado_find (db : DB) (bid : String) (total : ℤ) (b0 : Bolao)
    (h : db.boloes.find? (fun b => b.id == bid) = some b0) :
    ∃ b1, (marcaApuradoSeCompleto db bid total).boloes.find? (fun b => b.id == bid) = some b1 ∧
      b1.id = b0.id ∧ b1.concurso_numero = b0.concurso_numero ∧
      b1.concurso_fim = b0.concurso_fim ∧
      (b1.status = b0.status ∨ b1.status = "apurado") := by
  unfold marcaApuradoSeCompleto
  split
  · refine ⟨{ b0 with status := "apurado" }, ?_, rfl, rfl, rfl, Or.inr rfl⟩
    rw [find?_boloes_patch db.boloes bid (fun b => { b with status := "apurado" })
      (fun b => rfl), h, Option.map_some']
  · exact ⟨b0, h, rfl, rfl, rfl, Or.inl rfl⟩


/-! ### Claim C3: idempotent apuration of one contest -/

/-- C3: after a successful single-contest apuration, repeating the identical
request is rejected with a conflict error (pool already fully apurated, or
duplicate contest result) and the store is returned unchanged: no new hit
rows, no new wallet credits. -/
theorem apuracao_idempotente (resolver : Resolver) (db db1 : DB) (bid : String)
    (conc : ℤ) (r : ConcursoResultado)
    (h : apurar_concurso_individual resolver db bid conc = (db1, Except.ok r)) :
    ∃ e : ApiErr, apurar_concurso_individual resolver db1 bid conc = (db1, Except.error e) ∧
      e.isConflict = true := by
  unfold apurar_concurso_individual at h
  cases hfind : db.boloes.find? (fun b => b.id == bid) with
  | none =>
    simp only [hfind] at h
    simp at h
  | some bolao =>
    simp only [hfind] at h
    by_cases hst : (bolao.status == "apurado") = true
    · rw [if_pos hst] at h
      simp at h
    · rw [if_neg hst] at h
      by_cases hjg : ((db.jogos_bolao.filter (fun j => j.bolao_id == bid)).isEmpty) = true
      · rw [if_pos hjg] at h
        simp at h
      · rw [if_neg hjg] at h
        by_cases hrg : ((if is_teimosinha bolao then decide (conc ∉ concursos_list bolao)
            else conc != bolao.concurso_numero) : Bool) = true
        · rw [if_pos hrg] at h
          simp at h
        · rw [if_neg hrg] at h
          by_cases hdup : ¬ ((db.resultados_concurso.filter (fun x =>
              x.bolao_id == bid && x.concurso_numero == conc)).isEmpty = true)
          · rw [if_pos hdup] at h
            simp at h
          · rw [if_neg hdup] at h
            cases hres : resolver conc with
            | none =>
              simp only [hres] at h
              simp at h
            | some rc =>
              simp only [hres] at h
              have hdb1 : db1 = (if is_teimosinha bolao then
                  marcaApuradoSeCompleto (apurar_concurso resolver db bid conc rc.dezenas
                    (some rc.premiacoes)).1 bid (total_concursos bolao)
                else (apurar_concurso resolver db bid conc rc.dezenas
                  (some rc.premiacoes)).1) := by
                have := congrArg Prod.fst h
                simpa using this.symm
              have hfindA := apurar_concurso_find resolver db bid conc rc.dezenas
                (some rc.premiacoes) bolao hfind
              have hresA := apurar_concurso_resultados resolver db bid conc rc.dezenas
                (some rc.premiacoes)
              have hjogA := apurar_concurso_jogos resolver db bid conc rc.dezenas
                (some rc.premiacoes)
              obtain ⟨b1, hfind1, hid1, hnum1, hfim1, hst1⟩ :
                  ∃ b1, db1.boloes.find? (fun b => b.id == bid) = some b1 ∧
                    b1.id = bolao.id ∧ b1.concurso_numero = bolao.concurso_numero ∧
                    b1.concurso_fim = bolao.concurso_fim ∧
                    (b1.status = bolao.status ∨ b1.status = "apurado") := by
                rw [hdb1]
                by_cases ht : is_teimosinha bolao
                · rw [if_pos ht]
                  obtain ⟨b1, hb1, g1, g2, g3, g4⟩ := marcaApurado_find _ bid
                    (total_concursos bolao) _ hfindA
                  exact ⟨b1, hb1, g1, g2, g3, g4⟩
                · rw [if_neg ht]
                  exact ⟨_, hfindA, rfl, rfl, rfl, Or.inl rfl⟩
              have hjog1 : db1.jogos_bolao = db.jogos_bolao := by
                rw [hdb1]
                by_cases ht : is_teimosinha bolao
                · rw [if_pos ht, marcaApurado_jogos, hjogA]
                · rw [if_neg ht, hjogA]
              have hres1 : db1.resultados_concurso =
                  db.resultados_concurso ++ [⟨bid, conc, rc.dezenas⟩] := by
                rw [hdb1]
                by_cases ht : is_teimosinha bolao
                · rw [if_pos ht, marcaApurado_resultados, hresA]
                · rw [if_neg ht, hresA]
              have hdup1 : ((db1.resultados_concurso.filter (fun x =>
                  x.bolao_id == bid && x.concurso_numero == conc)).isEmpty) = false := by
                rw [hres1, List.filter_append]
                simp
              have hteimo1 : is_teimosinha b1 = is_teimosinha bolao := by
                unfold is_teimosinha
                rw [hfim1, hnum1]
              have hlist1 : concursos_list b1 = concursos_list bolao := by
                unfold concursos_list
                rw [hfim1, hnum1]
              unfold apurar_concurso_individual
              simp only [hfind1]
              rcases hst1 with hst1 | hst1
              · rw [hst1]
                rw [if_neg hst]
                have hjgF : ((db1.jogos_bolao.filter (fun j => j.bolao_id == bid)).isEmpty)
                    ≠ true := by
                  rw [hjog1]
                  exact hjg
                rw [if_neg hjgF]
                have hrgF : ((if is_teimosinha b1 then decide (conc ∉ concursos_list b1)
                    else conc != b1.concurso_numero) : Bool) ≠ true := by
                  rw [hteimo1, hlist1, hnum1]
                  exact hrg
                rw [if_neg hrgF]
                have hdupT : ¬ ((db1.resultados_concurso.filter (fun x =>
                    x.bolao_id == bid && x.concurso_numero == conc)).isEmpty = true) := by
                  rw [hdup1]
                  simp
                rw [if_pos hdupT]
                exact ⟨ApiErr.concursoJaApurado, rfl, rfl⟩
              · rw [hst1]
                rw [if_pos (by simp)]
                exact ⟨ApiErr.jaApurado, rfl, rfl⟩


/-- Result API stub for the idempotency witness: contest 100 resolves with an
empty payout table, every other contest is unavailable. -/
def resolverPequeno : Resolver := fun c => if c = 100 then some ⟨[1,2,3], []⟩ else none

/-- The store after the first successful apuration of contest 100 on
`dbPequeno`: result row and hit row written, counter bumped to 1. -/
def db1Pequeno : DB :=
  { dbPequeno with
    boloes := [{ id := "b1", nome := "Bolão Teste", valor_cota := 10, concurso_numero := 100,
                 concurso_fim := none, concursos_apurados := some 1, status := "fechado",
                 resultado_dezenas := none }],
    resultados_concurso := [⟨"b1", 100, [1, 2, 3]⟩],
    acertos_concurso := [⟨"j1", "b1", 100, 3⟩] }

/-- Witness for C3: the first call on `dbPequeno` succeeds; the second call is
rejected as a duplicate contest result and leaves the store unchanged. -/
theorem apuracao_idempotente_witness :
    apurar_concurso_individual resolverPequeno db1Pequeno "b1" 100 =
      (db1Pequeno, Except.error ApiErr.concursoJaApurado) ∧
    ApiErr.concursoJaApurado.isConflict = true := by
  obtain ⟨e, he, hc⟩ := apuracao_idempotente resolverPequeno dbPequeno db1Pequeno "b1" 100
    ⟨100, [1,2,3], [⟨"j1", [1,2,3], 3⟩], resumoInicial, round2 0⟩ (by rfl)
  have h2 : apurar_concurso_individual resolverPequeno db1Pequeno "b1" 100 =
      (db1Pequeno, Except.error ApiErr.concursoJaApurado) := by rfl
  exact ⟨h2, rfl⟩


/-! ### Claim C8: the single-shot apuration never stamps resultado_dezenas -/

theorem apurarBolaoLoopAux (dz : List ℤ) :
    ∀ (jogos : List Jogo) (acc : DB × List JogoResultado × List (ℕ × ℕ)),
    ((jogos.foldl (apurarBolaoJogoStep dz) acc).1.boloes = acc.1.boloes ∧
     (jogos.foldl (apurarBolaoJogoStep dz) acc).1.resultados_concurso =
       acc.1.resultados_concurso ∧
     (jogos.foldl (apurarBolaoJogoStep dz) acc).1.acertos_concurso = acc.1.acertos_concurso) := by
  intro jogos
  induction jogos with
  | nil => intro acc; exact ⟨rfl, rfl, rfl⟩
  | cons j rest ih =>
    intro acc
    rw [List.foldl_cons]
    exact ih (apurarBolaoJogoStep dz acc j)

/-- C8 (code bug): `apurar_bolao` never writes the pool's `resultado_dezenas`
column — on any store the per-pool `resultado_dezenas` values are exactly what
they were — even though its own docstring (step 4) and the result-reading
endpoints require the draw to be stamped on the pool row. The concrete run
shows the pool ends with status "apurado" but `resultado_dezenas` still
`none`. -/
theorem resultado_dezenas_nunca_gravado :
    (∀ (resolver : Resolver) (db : DB) (bid : String) (dz : List ℤ),
      ((apurar_bolao resolver db bid dz).1.boloes.map Bolao.resultado_dezenas) =
        db.boloes.map Bolao.resultado_dezenas) ∧
    (apurar_bolao resolverPequeno dbPequeno "b1" [1, 2, 3]).1.boloes =
      [{ id := "b1", nome := "Bolão Teste", valor_cota := 10, concurso_numero := 100,
         concurso_fim := none, concursos_apurados := none, status := "apurado",
         resultado_dezenas := none }] := by
  constructor
  · intro resolver db bid dz
    unfold apurar_bolao
    by_cases hj : (db.jogos_bolao.filter (fun j => j.bolao_id == bid)).isEmpty
    · rw [if_pos hj]
    · rw [if_neg hj]
      simp only
      rw [distSeHouver_boloes]
      show ((((db.jogos_bolao.filter (fun j => j.bolao_id == bid)).foldl
          (apurarBolaoJogoStep dz) (db, [], resumoInicial)).1.boloes.map (fun b =>
            if b.id == bid then { b with status := "apurado" } else b)).map
          Bolao.resultado_dezenas) = db.boloes.map Bolao.resultado_dezenas
      rw [(apurarBolaoLoopAux dz (db.jogos_bolao.filter (fun j => j.bolao_id == bid))
        (db, [], resumoInicial)).1]
      rw [List.map_map]
      apply List.map_congr_left
      intro b _
      by_cases hb : (b.id == bid) = true <;> simp [Function.comp, hb]
  · rfl


/-! ### Claim C9: apuration of a pool with zero tickets -/

/-- Store with one pool and no registered tickets. -/
def dbSemJogos : DB :=
  { boloes := [{ id := "b9", nome := "Vazio", valor_cota := 10, concurso_numero := 100,
                 concurso_fim := none, concursos_apurados := none, status := "fechado",
                 resultado_dezenas := none }]
    jogos_bolao := []
    cotas := []
    carteira := []
    transacoes := []
    resultados_concurso := []
    acertos_concurso := []
    premiacoes_bolao := [] }

/-- Counterexample to C9 as stated: the service-level apuration operations do
not reject a zero-ticket pool. `apurar_concurso` succeeds and performs writes
(result row inserted, apurated counter bumped), and `apurar_bolao` succeeds
silently with empty results instead of erroring. -/
theorem servico_apura_sem_jogos :
    (dbSemJogos.jogos_bolao.filter (fun j => j.bolao_id == "b9")).isEmpty = true ∧
    (apurar_concurso resolverPequeno dbSemJogos "b9" 100 [1, 2, 3]
        (some [])).1.resultados_concurso =
      dbSemJogos.resultados_concurso ++ [⟨"b9", 100, [1, 2, 3]⟩] ∧
    (apurar_concurso resolverPequeno dbSemJogos "b9" 100 [1, 2, 3] (some [])).1.boloes ≠
      dbSemJogos.boloes ∧
    apurar_bolao resolverPequeno dbSemJogos "b9" [1, 2, 3] =
      (dbSemJogos, ⟨"b9", none, [1, 2, 3], [], [], none⟩) := by
  refine ⟨rfl, rfl, ?_, rfl⟩
  intro hEq
  have h1 : (apurar_concurso resolverPequeno dbSemJogos "b9" 100 [1, 2, 3]
      (some [])).1.boloes =
      [{ id := "b9", nome := "Vazio", valor_cota := 10, concurso_numero := 100,
         concurso_fim := none, concursos_apurados := some 1, status := "fechado",
         resultado_dezenas := none }] := rfl
  rw [h1] at hEq
  have h2 := congrArg (fun l => (l.map Bolao.concursos_apurados)) hEq
  simp [dbSemJogos] at h2

/-- C9 amended: the admin HTTP endpoints (not the service functions) reject a
zero-ticket pool with the invalid-argument error "no tickets registered"
before performing any write — the store is returned unchanged. -/
theorem endpoints_rejeitam_sem_jogos (resolver : Resolver) (db : DB) (bid : String)
    (bolao : Bolao)
    (hb : db.boloes.find? (fun b => b.id == bid) = some bolao)
    (hst : (bolao.status == "apurado") = false)
    (hj : (db.jogos_bolao.filter (fun j => j.bolao_id == bid)).isEmpty = true) :
    (∀ conc : ℤ, apurar_concurso_individual resolver db bid conc =
      (db, Except.error ApiErr.semJogos)) ∧
    (∀ inp : ResultadoInput, apurar_bolao_manual resolver db bid inp =
      (db, Except.error ApiErr.semJogos)) := by
  constructor
  · intro conc
    unfold apurar_concurso_individual
    simp only [hb]
    rw [if_neg (by simp [hst]), if_pos hj]
  · intro inp
    unfold apurar_bolao_manual
    simp only [hb]
    rw [if_neg (by simp [hst]), if_pos hj]

/-- Witness for the amended C9 at the concrete zero-ticket store. -/
theorem endpoints_rejeitam_sem_jogos_witness :
    apurar_concurso_individual resolverPequeno dbSemJogos "b9" 100 =
      (dbSemJogos, Except.error ApiErr.semJogos) ∧
    apurar_bolao_manual resolverPequeno dbSemJogos "b9" ⟨[1, 2, 3], none⟩ =
      (dbSemJogos, Except.error ApiErr.semJogos) := by
  obtain ⟨h1, h2⟩ := endpoints_rejeitam_sem_jogos resolverPequeno dbSemJogos "b9"
    ⟨"b9", "Vazio", 10, 100, none, none, "fechado", none⟩ (by decide) (by decide) (by decide)
  exact ⟨h1 100, h2 ⟨[1, 2, 3], none⟩⟩

/-! ### Master lemma for the pending-contest batch loop -/

/-- One full run of the pending-contest loop, relative to the starting
accumulator: the scored contests are exactly the resolver-available ones in
order, unavailable contests produce exactly their textual error entries, the
prize accumulator adds the per-contest rounded totals, result rows grow by one
row per scored contest, and the pool's apurated counter grows by the number of
scored contests with status and id intact. -/
theorem pendLoop_master (resolver : Resolver) (bid : String) :
    ∀ (pend : List ℤ) (acc : DB × List ConcursoResultado × List String × ℚ),
    ∃ novos : List ConcursoResultado,
      (pend.foldl (apurarPendenteStep resolver bid) acc).2.1 = acc.2.1 ++ novos ∧
      novos.map ConcursoResultado.concurso_numero =
        pend.filter (fun c => (resolver c).isSome) ∧
      (pend.foldl (apurarPendenteStep resolver bid) acc).2.2.1 = acc.2.2.1 ++
        (pend.filter (fun c => (resolver c).isNone)).map
          (fun c => "Concurso " ++ toString c ++ ": resultado não disponível") ∧
      (pend.foldl (apurarPendenteStep resolver bid) acc).2.2.2 = acc.2.2.2 +
        (novos.map ConcursoResultado.premio_total).sum ∧
      (pend.foldl (apurarPendenteStep resolver bid) acc).1.resultados_concurso =
        acc.1.resultados_concurso ++
          novos.map (fun r => ⟨bid, r.concurso_numero, r.dezenas⟩) ∧
      (∀ b0, acc.1.boloes.find? (fun b => b.id == bid) = some b0 →
        ∃ b1, (pend.foldl (apurarPendenteStep resolver bid) acc).1.boloes.find?
            (fun b => b.id == bid) = some b1 ∧
          b1.concursos_apurados.getD 0 = b0.concursos_apurados.getD 0 +
            (pend.filter (fun c => (resolver c).isSome)).length ∧
          b1.status = b0.status ∧ b1.id = b0.id) := by
  intro pend
  induction pend with
  | nil =>
    intro acc
    refine ⟨[], by simp, by simp, by simp, by simp, by simp, ?_⟩
    intro b0 hb0
    exact ⟨b0, by simpa using hb0, by simp, rfl, rfl⟩
  | cons c rest ih =>
    intro acc
    rw [List.foldl_cons]
    cases hres : resolver c with
    | none =>
      have hstep : apurarPendenteStep resolver bid acc c =
          (acc.1, acc.2.1, acc.2.2.1 ++
            ["Concurso " ++ toString c ++ ": resultado não disponível"], acc.2.2.2) := by
        unfold apurarPendenteStep
        rw [hres]
      rw [hstep]
      obtain ⟨novos, g1, g2, g3, g4, g5, g6⟩ := ih
        (acc.1, acc.2.1, acc.2.2.1 ++
          ["Concurso " ++ toString c ++ ": resultado não disponível"], acc.2.2.2)
      have hfn : (c :: rest).filter (fun x => (resolver x).isNone) =
          c :: rest.filter (fun x => (resolver x).isNone) := by
        rw [List.filter_cons]
        simp [hres]
      have hfs : (c :: rest).filter (fun x => (resolver x).isSome) =
          rest.filter (fun x => (resolver x).isSome) := by
        rw [List.filter_cons]
        simp [hres]
      refine ⟨novos, g1, by rw [g2, hfs], ?_, g4, g5, ?_⟩
      · rw [g3, hfn]
        simp
      · intro b0 hb0
        obtain ⟨b1, k1, k2, k3, k4⟩ := g6 b0 hb0
        refine ⟨b1, k1, ?_, k3, k4⟩
        rw [k2, hfs]
    | some rc =>
      have hstep : apurarPendenteStep resolver bid acc c =
          ((apurar_concurso resolver acc.1 bid c rc.dezenas (some rc.premiacoes)).1,
           acc.2.1 ++ [(apurar_concurso resolver acc.1 bid c rc.dezenas (some rc.premiacoes)).2],
           acc.2.2.1,
           acc.2.2.2 + (apurar_concurso resolver acc.1 bid c rc.dezenas
             (some rc.premiacoes)).2.premio_total) := by
        unfold apurarPendenteStep
        rw [hres]
      rw [hstep]
      obtain ⟨novos, g1, g2, g3, g4, g5, g6⟩ := ih
        ((apurar_concurso resolver acc.1 bid c rc.dezenas (some rc.premiacoes)).1,
         acc.2.1 ++ [(apurar_concurso resolver acc.1 bid c rc.dezenas (some rc.premiacoes)).2],
         acc.2.2.1,
         acc.2.2.2 + (apurar_concurso resolver acc.1 bid c rc.dezenas
           (some rc.premiacoes)).2.premio_total)
      have hfn : (c :: rest).filter (fun x => (resolver x).isNone) =
          rest.filter (fun x => (resolver x).isNone) := by
        rw [List.filter_cons]
        simp [hres]
      have hfs : (c :: rest).filter (fun x => (resolver x).isSome) =
          c :: rest.filter (fun x => (resolver x).isSome) := by
        rw [List.filter_cons]
        simp [hres]
      obtain ⟨hconc, hdez⟩ := apurar_concurso_ret resolver acc.1 bid c rc.dezenas
        (some rc.premiacoes)
      refine ⟨(apurar_concurso resolver acc.1 bid c rc.dezenas (some rc.premiacoes)).2 :: novos,
        ?_, ?_, ?_, ?_, ?_, ?_⟩
      · rw [g1]
        simp
      · rw [List.map_cons, g2, hfs, hconc]
      · rw [g3, hfn]
      · rw [g4, List.map_cons, List.sum_cons]
        ring
      · rw [g5, apurar_concurso_resultados]
        simp [hconc, hdez]
      · intro b0 hb0
        have hb0' := apurar_concurso_find resolver acc.1 bid c rc.dezenas
          (some rc.premiacoes) b0 hb0
        obtain ⟨b1, k1, k2, k3, k4⟩ := g6 _ hb0'
        refine ⟨b1, k1, ?_, k3, k4⟩
        rw [k2, hfs]
        simp only [List.length_cons, Option.getD_some]
        omega


/-! ### Claim C7: terminal status exactly at full apuration -/

/-- C7: for a batch apuration with pending contests, the pool's apurated
counter ends at its previous value plus the number of newly scored contests,
and the status becomes "apurado" exactly when that counter reaches
`contest_count`; otherwise the status keeps its previous value. -/
theorem status_apurado_exato (resolver : Resolver) (db : DB) (bid : String) (bolao : Bolao)
    (hb : db.boloes.find? (fun b => b.id == bid) = some bolao)
    (hne : (pendentesDe db bid bolao).isEmpty = false) :
    ∃ b1, (apurar_todos_concursos resolver db bid).1.boloes.find?
        (fun b => b.id == bid) = some b1 ∧
      b1.concursos_apurados.getD 0 = bolao.concursos_apurados.getD 0 +
        ((pendentesDe db bid bolao).filter (fun c => (resolver c).isSome)).length ∧
      b1.status = (if bolao.concursos_apurados.getD 0 +
          ((pendentesDe db bid bolao).filter (fun c => (resolver c).isSome)).length ≥
          total_concursos bolao
        then "apurado" else bolao.status) := by
  unfold apurar_todos_concursos
  simp only [hb]
  rw [if_neg (by rw [hne]; simp)]
  simp only
  obtain ⟨novos, g1, g2, g3, g4, g5, g6⟩ := pendLoop_master resolver bid
    (pendentesDe db bid bolao) (db, [], [], 0)
  obtain ⟨b1, k1, k2, k3, k4⟩ := g6 bolao hb
  have hler : lerConcursosApurados
      ((pendentesDe db bid bolao).foldl (apurarPendenteStep resolver bid) (db, [], [], 0)).1
      bid = b1.concursos_apurados.getD 0 := by
    unfold lerConcursosApurados
    rw [k1]
  unfold marcaApuradoSeCompleto
  by_cases hge : lerConcursosApurados
      ((pendentesDe db bid bolao).foldl (apurarPendenteStep resolver bid) (db, [], [], 0)).1
      bid ≥ total_concursos bolao
  · rw [if_pos hge]
    refine ⟨{ b1 with status := "apurado" }, ?_, by simpa using k2, ?_⟩
    · rw [find?_boloes_patch _ bid (fun b => { b with status := "apurado" })
        (fun b => rfl), k1, Option.map_some']
    · rw [if_pos (by rw [← k2]; rw [hler] at hge; exact hge)]
  · rw [if_neg hge]
    refine ⟨b1, k1, k2, ?_⟩
    rw [if_neg (by rw [← k2]; rw [hler] at hge; exact hge), k3]


/-! ### Claim C6: the batch skips unavailable contests and continues -/

/-- C6: when the resolver is unavailable for a pending contest c0, the batch
records exactly one textual error entry per unavailable contest (c0's among
them) and still scores every available pending contest in order; c0 gets no
result row (remains pending), and the returned prize aggregate is the rounded
sum of the newly scored contests' prize totals. -/
theorem lote_continua_apos_erro (resolver : Resolver) (db : DB) (bid : String)
    (bolao : Bolao)
    (hb : db.boloes.find? (fun b => b.id == bid) = some bolao)
    (c0 : ℤ) (hc0 : c0 ∈ pendentesDe db bid bolao)
    (hr0 : resolver c0 = none) :
    ∃ (apurados : ℤ) (resultados : List ConcursoResultado) (erros : List String),
      (apurar_todos_concursos resolver db bid).2 =
        ApurarTodosOut.ok bid bolao.concurso_numero bolao.concurso_fim
          (total_concursos bolao) apurados resultados erros
          (round2 ((resultados.map ConcursoResultado.premio_total).sum)) ∧
      erros = ((pendentesDe db bid bolao).filter (fun c => (resolver c).isNone)).map
        (fun c => "Concurso " ++ toString c ++ ": resultado não disponível") ∧
      ("Concurso " ++ toString c0 ++ ": resultado não disponível") ∈ erros ∧
      resultados.map ConcursoResultado.concurso_numero =
        (pendentesDe db bid bolao).filter (fun c => (resolver c).isSome) ∧
      ¬ ∃ row ∈ (apurar_todos_concursos resolver db bid).1.resultados_concurso,
        row.bolao_id = bid ∧ row.concurso_numero = c0 := by
  have hne : (pendentesDe db bid bolao).isEmpty = false := by
    cases hpd : pendentesDe db bid bolao with
    | nil =>
      rw [hpd] at hc0
      simp at hc0
    | cons x xs => rfl
  have hnotja : ¬ c0 ∈ ((db.resultados_concurso.filter
      (fun r => r.bolao_id == bid)).map (fun r => r.concurso_numero)) := by
    have := List.of_mem_filter hc0
    simpa using this
  obtain ⟨novos, g1, g2, g3, g4, g5, g6⟩ := pendLoop_master resolver bid
    (pendentesDe db bid bolao) (db, [], [], 0)
  have hnovos : ((pendentesDe db bid bolao).foldl (apurarPendenteStep resolver bid)
      (db, [], [], 0)).2.1 = novos := by
    rw [g1]
    simp
  have herros : ((pendentesDe db bid bolao).foldl (apurarPendenteStep resolver bid)
      (db, [], [], 0)).2.2.1 =
      ((pendentesDe db bid bolao).filter (fun c => (resolver c).isNone)).map
        (fun c => "Concurso " ++ toString c ++ ": resultado não disponível") := by
    rw [g3]
    simp
  have hpremio : ((pendentesDe db bid bolao).foldl (apurarPendenteStep resolver bid)
      (db, [], [], 0)).2.2.2 = (novos.map ConcursoResultado.premio_total).sum := by
    rw [g4]
    simp
  have hrows : (apurar_todos_concursos resolver db bid).1.resultados_concurso =
      db.resultados_concurso ++
        novos.map (fun r => ⟨bid, r.concurso_numero, r.dezenas⟩) := by
    unfold apurar_todos_concursos
    simp only [hb]
    rw [if_neg (by rw [hne]; simp)]
    simp only
    rw [marcaApurado_resultados, g5]
  refine ⟨lerConcursosApurados ((pendentesDe db bid bolao).foldl
      (apurarPendenteStep resolver bid) (db, [], [], 0)).1 bid, novos,
    ((pendentesDe db bid bolao).filter (fun c => (resolver c).isNone)).map
      (fun c => "Concurso " ++ toString c ++ ": resultado não disponível"),
    ?_, rfl, ?_, g2, ?_⟩
  · unfold apurar_todos_concursos
    simp only [hb]
    rw [if_neg (by rw [hne]; simp)]
    simp only
    rw [hnovos, herros, hpremio]
  · apply List.mem_map_of_mem
    rw [List.mem_filter]
    refine ⟨hc0, ?_⟩
    simp [hr0]
  · rintro ⟨row, hrow, hbid, hcon⟩
    rw [hrows] at hrow
    rcases List.mem_append.mp hrow with hrow | hrow
    · apply hnotja
      apply List.mem_map.mpr
      refine ⟨row, ?_, hcon⟩
      apply List.mem_filter.mpr
      refine ⟨hrow, ?_⟩
      simp [hbid]
    · obtain ⟨r, hr, hEq⟩ := List.mem_map.mp hrow
      have hrc : r.concurso_numero = c0 := by
        have h5 := congrArg ResultadoConcurso.concurso_numero hEq
        exact (show r.concurso_numero = row.concurso_numero from h5).trans hcon
      have hmem : r.concurso_numero ∈
          (pendentesDe db bid bolao).filter (fun c => (resolver c).isSome) := by
        rw [← g2]
        exact List.mem_map_of_mem ConcursoResultado.concurso_numero hr
      rw [hrc] at hmem
      have := (List.mem_filter.mp hmem).2
      rw [hr0] at this
      simp at this


/-! ### Concrete series pools and witnesses for C6 and C7 -/

/-- A three-contest series pool (contests 100..102) with one ticket. -/
def dbTeimosinha : DB :=
  { boloes := [{ id := "b7", nome := "Série", valor_cota := 10, concurso_numero := 100,
                 concurso_fim := some 102, concursos_apurados := none, status := "fechado",
                 resultado_dezenas := none }]
    jogos_bolao := [{ id := "j7", bolao_id := "b7", dezenas := [1, 2, 3], acertos := none }]
    cotas := []
    carteira := []
    transacoes := []
    resultados_concurso := []
    acertos_concurso := []
    premiacoes_bolao := [] }

/-- Resolver with results (and empty payout tables) for contests 100..102. -/
def resolverTodos : Resolver := fun c =>
  if 100 ≤ c ∧ c ≤ 102 then some ⟨[1, 2, 3], []⟩ else none

/-- Witness for C7: all three contests of the 100..102 series resolve, so the
pool ends with counter 3 and status "apurado". -/
theorem status_apurado_exato_witness :
    ((apurar_todos_concursos resolverTodos dbTeimosinha "b7").1.boloes.find?
        (fun b => b.id == "b7")).map Bolao.status = some "apurado" ∧
    ((apurar_todos_concursos resolverTodos dbTeimosinha "b7").1.boloes.find?
        (fun b => b.id == "b7")).map (fun b => b.concursos_apurados.getD 0) = some 3 := by
  obtain ⟨b1, k1, k2, k3⟩ := status_apurado_exato resolverTodos dbTeimosinha "b7"
    ⟨"b7", "Série", 10, 100, some 102, none, "fechado", none⟩ (by decide) (by decide)
  have hl : ((pendentesDe dbTeimosinha "b7"
      ⟨"b7", "Série", 10, 100, some 102, none, "fechado", none⟩).filter
      (fun c => (resolverTodos c).isSome)).length = 3 := by decide
  rw [hl] at k2 k3
  have ht : total_concursos (⟨"b7", "Série", 10, 100, some 102, none, "fechado", none⟩ : Bolao)
      = 3 := by decide
  rw [ht] at k3
  norm_num at k2 k3
  rw [k1]
  exact ⟨by rw [Option.map_some', k3], by rw [Option.map_some', k2]⟩

/-- A two-contest series pool (contests 200..201) with one ticket. -/
def dbSerie2 : DB :=
  { boloes := [{ id := "b6", nome := "Série2", valor_cota := 10, concurso_numero := 200,
                 concurso_fim := some 201, concursos_apurados := none, status := "fechado",
                 resultado_dezenas := none }]
    jogos_bolao := [{ id := "j6", bolao_id := "b6", dezenas := [1, 2, 3], acertos := none }]
    cotas := []
    carteira := []
    transacoes := []
    resultados_concurso := []
    acertos_concurso := []
    premiacoes_bolao := [] }

/-- Resolver that has contest 201 but not yet contest 200. -/
def resolver201 : Resolver := fun c =>
  if c = 201 then some ⟨[4, 5, 6], []⟩ else none

/-- The error list of a batch-apuration outcome. -/
def errosDe : ApurarTodosOut → List String
  | .ok _ _ _ _ _ _ erros _ => erros
  | _ => []

/-- The per-contest results of a batch-apuration outcome. -/
def resultadosDe : ApurarTodosOut → List ConcursoResultado
  | .ok _ _ _ _ _ res _ _ => res
  | _ => []

/-- Witness for C6: on the 200..201 series with 200 unavailable, the batch
returns an error entry for 200, scores exactly 201, and leaves no result row
for 200. -/
theorem lote_continua_apos_erro_witness :
    ("Concurso 200: resultado não disponível") ∈
      errosDe (apurar_todos_concursos resolver201 dbSerie2 "b6").2 ∧
    (resultadosDe (apurar_todos_concursos resolver201 dbSerie2 "b6").2).map
      ConcursoResultado.concurso_numero = [201] ∧
    ¬ ∃ row ∈ (apurar_todos_concursos resolver201 dbSerie2 "b6").1.resultados_concurso,
      row.bolao_id = "b6" ∧ row.concurso_numero = 200 := by
  obtain ⟨ap, res, errs, hok, herr, hmem, hconc, hpend⟩ :=
    lote_continua_apos_erro resolver201 dbSerie2 "b6"
      ⟨"b6", "Série2", 10, 200, some 201, none, "fechado", none⟩ (by decide)
      200 (by decide) (by decide)
  refine ⟨?_, ?_, hpend⟩
  · rw [hok]
    show ("Concurso 200: resultado não disponível") ∈ errs
    have hstr : ("Concurso " ++ toString (200 : ℤ) ++ ": resultado não disponível") =
        "Concurso 200: resultado não disponível" := rfl
    rw [← hstr]
    exact hmem
  · rw [hok]
    show res.map ConcursoResultado.concurso_numero = [201]
    rw [hconc]
    decide

end Lotofacil
